import Mathlib

/-!
Shallow embedding of the rhythm-trainer core: the timing arithmetic
(`calculateTimingOffset`, `bpmToIntervalMs`, `getAccuracyRating`,
`calculateAverageOffset` of src/unnamed/part_000), the metronome beat
scheduler (`src/lib/metronome.ts`, the count-in version), and the
calibration overlay's tap/effect state machine (src/unnamed/part_001).
Times, BPM values and offsets are modelled as exact rationals, beat
indices as integers.  JavaScript's `Math.round` rounds half-points toward
positive infinity, which we model as `jsRound x = ⌊x + 1/2⌋`.
-/

/-- JavaScript `Math.round`: nearest integer, half-points toward positive
infinity (so `Math.round (-2.5) = -2`). -/
def jsRound (x : ℚ) : ℤ := ⌊x + 1/2⌋

/-- Round half away from zero, the convention the spec ascribes to
`beatNumber = round(elapsed / intervalMs)`.  Kept for comparison with the
source's `jsRound`; no embedded source function uses it. -/
def roundHalfAwayFromZero (x : ℚ) : ℤ :=
  if 0 ≤ x then ⌊x + 1/2⌋ else -⌊-x + 1/2⌋

/-- Result record of `calculateTimingOffset` (src/unnamed/part_000). -/
structure TimingResult where
  offsetMs : ℚ
  nearestBeatTime : ℚ
  tapTime : ℚ
  deriving DecidableEq, Repr

/-- The local `beatNumber` computed inside `calculateTimingOffset`:
`Math.round(elapsed / beatIntervalMs)`. -/
def timingBeatNumber (tapTime startTime beatIntervalMs : ℚ) : ℤ :=
  jsRound ((tapTime - startTime) / beatIntervalMs)

/-- `calculateTimingOffset` from src/unnamed/part_000: offset between a tap
and the nearest expected beat (negative = early, positive = late). -/
def calculateTimingOffset (tapTime startTime beatIntervalMs : ℚ) : TimingResult :=
  let beatNumber := timingBeatNumber tapTime startTime beatIntervalMs
  let nearestBeatTime := startTime + (beatNumber : ℚ) * beatIntervalMs
  let offsetMs := tapTime - nearestBeatTime
  { offsetMs := offsetMs, nearestBeatTime := nearestBeatTime, tapTime := tapTime }

/-- `bpmToIntervalMs` from src/unnamed/part_000. -/
def bpmToIntervalMs (bpm : ℚ) : ℚ := 60000 / bpm

/-- The four accuracy ratings of `getAccuracyRating`. -/
inductive Rating where
  | perfect
  | good
  | okay
  | miss
  deriving DecidableEq, Repr

/-- Return value of `getAccuracyRating` (rating plus display label). -/
structure AccuracyRating where
  rating : Rating
  label : String
  deriving DecidableEq, Repr

/-- `getAccuracyRating` from src/unnamed/part_000. -/
def getAccuracyRating (offsetMs : ℚ) : AccuracyRating :=
  let absOffset := |offsetMs|
  if absOffset ≤ 20 then { rating := .perfect, label := "Perfect!" }
  else if absOffset ≤ 50 then { rating := .good, label := "Good" }
  else if absOffset ≤ 100 then { rating := .okay, label := "Okay" }
  else { rating := .miss, label := "Miss" }

/-- `calculateAverageOffset` from src/unnamed/part_000: arithmetic mean,
`0` for an empty list. -/
def calculateAverageOffset (offsets : List ℚ) : ℚ :=
  if offsets.length = 0 then 0 else offsets.sum / offsets.length

/-! The metronome engine of src/lib/metronome.ts (the count-in version):
its mutable state, the events it reports through callbacks, and its
operations `setBpm`, `setAudioLatency`, `getAdjustedStartTime`, `start`,
`stop`, `tick`.  `tick` is driven externally every `TICK_INTERVAL_MS`;
audio playback (`playClick`) is fire-and-forget and carries no state we
track beyond the emitted callback events. -/

/-- `MetronomeState` of src/lib/metronome.ts plus the private scheduler
fields `nextScheduledBeat`, `countInBeats` being fixed at its default,
and `audioLatencyMs`. -/
structure MetronomeState where
  isPlaying : Bool
  bpm : ℚ
  startTime : Option ℚ
  currentBeat : ℤ
  isCountingIn : Bool
  countInBeatsRemaining : ℕ
  nextScheduledBeat : ℤ
  audioLatencyMs : ℚ
  deriving DecidableEq, Repr

/-- Callback events the metronome emits: `onCountIn(beatsRemaining)`,
`onCountInComplete()`, `onBeat(beatNumber, beatTime)`. -/
inductive MetEvent where
  | countIn (beatsRemaining : ℕ)
  | countInComplete
  | beat (beatNumber : ℤ) (beatTime : ℚ)
  deriving DecidableEq, Repr

/-- `AUDIO_LOOKAHEAD_MS = 50` of src/lib/metronome.ts. -/
def AUDIO_LOOKAHEAD_MS : ℚ := 50

/-- `DEFAULT_COUNT_IN_BEATS = 4` of src/lib/metronome.ts; the private
field `countInBeats` always holds this value. -/
def DEFAULT_COUNT_IN_BEATS : ℕ := 4

/-- The initial `Metronome` state: not playing, BPM 90, no start time. -/
def metInitial : MetronomeState :=
  { isPlaying := false, bpm := 90, startTime := none, currentBeat := 0,
    isCountingIn := false, countInBeatsRemaining := 0, nextScheduledBeat := 0,
    audioLatencyMs := 0 }

namespace Metronome

/-- `setBpm`: clamps the argument into `[40, 200]`. -/
def setBpm (s : MetronomeState) (bpm : ℚ) : MetronomeState :=
  { s with bpm := max 40 (min 200 bpm) }

/-- `setAudioLatency`: stores the latency value. -/
def setAudioLatency (s : MetronomeState) (latencyMs : ℚ) : MetronomeState :=
  { s with audioLatencyMs := latencyMs }

/-- `getBeatIntervalMs`. -/
def getBeatIntervalMs (s : MetronomeState) : ℚ := bpmToIntervalMs s.bpm

/-- `getAdjustedStartTime`: `null` when there is no start time, otherwise
`startTime + audioLatencyMs`. -/
def getAdjustedStartTime (s : MetronomeState) : Option ℚ :=
  match s.startTime with
  | none => none
  | some t => some (t + s.audioLatencyMs)

/-- `start()`: no-op while playing; otherwise arms the count-in, anchors
`startTime = now + countInBeats * beatIntervalMs`, immediately plays the
first count-in click and emits `onCountIn(countInBeatsRemaining)`, and
leaves `nextScheduledBeat = -countInBeats + 1` for the tick loop. -/
def start (s : MetronomeState) (now : ℚ) : MetronomeState × List MetEvent :=
  if s.isPlaying then (s, [])
  else
    ({ s with
        isPlaying := true,
        currentBeat := -(DEFAULT_COUNT_IN_BEATS : ℤ),
        isCountingIn := true,
        countInBeatsRemaining := DEFAULT_COUNT_IN_BEATS,
        startTime := some (now + (DEFAULT_COUNT_IN_BEATS : ℚ) * getBeatIntervalMs s),
        nextScheduledBeat := -(DEFAULT_COUNT_IN_BEATS : ℤ) + 1 },
     [MetEvent.countIn DEFAULT_COUNT_IN_BEATS])

/-- `stop()`: no-op while not playing; otherwise resets the playback
fields (the code leaves `nextScheduledBeat` as is). -/
def stop (s : MetronomeState) : MetronomeState :=
  if s.isPlaying then
    { s with isPlaying := false, startTime := none, currentBeat := 0,
             isCountingIn := false, countInBeatsRemaining := 0 }
  else s

/-- `tick()`: guards on `isPlaying` and a non-null `startTime`, computes
`nextBeatTime = startTime + nextScheduledBeat * beatIntervalMs` from the
current BPM, and fires the beat when `now >= nextBeatTime - lookahead`:
count-in beats emit `onCountIn(|currentBeat|)`; the first non-negative
beat ends the count-in and emits `onCountInComplete` before its
`onBeat`. -/
def tick (s : MetronomeState) (now : ℚ) : MetronomeState × List MetEvent :=
  if s.isPlaying = false then (s, [])
  else
    match s.startTime with
    | none => (s, [])
    | some startTime =>
      let beatIntervalMs := getBeatIntervalMs s
      let nextBeatTime := startTime + (s.nextScheduledBeat : ℚ) * beatIntervalMs
      if nextBeatTime - AUDIO_LOOKAHEAD_MS ≤ now then
        let cb := s.nextScheduledBeat
        if cb < 0 then
          ({ s with currentBeat := cb, nextScheduledBeat := cb + 1,
                    countInBeatsRemaining := cb.natAbs },
           [MetEvent.countIn cb.natAbs])
        else if s.isCountingIn then
          ({ s with currentBeat := cb, nextScheduledBeat := cb + 1,
                    isCountingIn := false, countInBeatsRemaining := 0 },
           [MetEvent.countInComplete, MetEvent.beat cb nextBeatTime])
        else
          ({ s with currentBeat := cb, nextScheduledBeat := cb + 1 },
           [MetEvent.beat cb nextBeatTime])
      else (s, [])

end Metronome

/-- The operations a caller (UI or the external tick cadence) can perform
on the metronome. -/
inductive MetOp where
  | start (now : ℚ)
  | tick (now : ℚ)
  | stop
  | setBpm (bpm : ℚ)
  | setAudioLatency (latencyMs : ℚ)
  deriving Repr

/-- Whether an operation is a `setAudioLatency` call. -/
def MetOp.isSetLatency : MetOp → Bool
  | .setAudioLatency _ => true
  | _ => false

/-- One operation applied to a metronome state, with the events emitted. -/
def metStep (s : MetronomeState) : MetOp → MetronomeState × List MetEvent
  | .start now => Metronome.start s now
  | .tick now => Metronome.tick s now
  | .stop => (Metronome.stop s, [])
  | .setBpm bpm => (Metronome.setBpm s bpm, [])
  | .setAudioLatency latencyMs => (Metronome.setAudioLatency s latencyMs, [])

/-- A sequence of operations applied in order, with the concatenated
event trace. -/
def metRun (s : MetronomeState) : List MetOp → MetronomeState × List MetEvent
  | [] => (s, [])
  | op :: ops =>
      let r := metStep s op
      let r2 := metRun r.1 ops
      (r2.1, r.2 ++ r2.2)

/-! The calibration overlay of src/unnamed/part_001: its phase machine,
the `handleTap` handler and the two `useEffect` bodies — the progress
check with dependencies `[offsets, phase, lockedAverage]` and the
confirmation check with dependencies `[phase, confirmationTaps,
lockedAverage]`.  The React semantics is modelled faithfully: a tap
commits `handleTap`'s state updates and then runs commit rounds — in
each round, every effect whose dependencies changed since the previous
render runs, in declaration order, reading the current render's
snapshot (while `previousAvgRef` is a live ref, read and written
immediately), and the updates the effects queue become the next
render's snapshot — until the state is stable.  In particular a state
update made by an effect re-triggers the effects that depend on it on
the next round. -/

/-- The overlay's `phase` values (`cancelled` ends the component, so the
machine below never enters it). -/
inductive CalibPhase where
  | ready
  | counting
  | tapping
  | locked
  | done
  deriving DecidableEq, Repr

/-- The calibration session state: `phase`, `offsets`, `lockedAverage`,
`confirmationTaps`, the `previousAvgRef` ref and `detectedLatency`. -/
structure CalibState where
  phase : CalibPhase
  offsets : List ℚ
  lockedAverage : Option ℚ
  confirmationTaps : ℕ
  previousAvg : Option ℚ
  detectedLatency : Option ℤ
  deriving DecidableEq, Repr

/-- `STABILITY_THRESHOLD_MS = 2` of src/unnamed/part_001. -/
def STABILITY_THRESHOLD_MS : ℚ := 2

/-- `CONFIRMATION_BEATS = 16` of src/unnamed/part_001. -/
def CONFIRMATION_BEATS : ℕ := 16

/-- `MIN_TAPS_BEFORE_LOCK = 8` of src/unnamed/part_001. -/
def MIN_TAPS_BEFORE_LOCK : ℕ := 8

/-- The calibration-progress effect of src/unnamed/part_001, run against
the render snapshot `snap` and applying its queued updates (and the live
`previousAvgRef` write) to the pending state `pend`: below
`MIN_TAPS_BEFORE_LOCK` samples it does nothing; in `tapping` it locks
when the average moved at most `STABILITY_THRESHOLD_MS` from the
previous average (always recording the new previous average in the
ref); in `locked` it reverts to `tapping` when the average drifted more
than the threshold from the locked average.  Only this effect touches
the ref, and it runs first, so the ref's live value is
`pend.previousAvg`. -/
def progressEffect (snap pend : CalibState) : CalibState :=
  if snap.offsets.length < MIN_TAPS_BEFORE_LOCK then pend
  else
    let avgOffset := calculateAverageOffset snap.offsets
    if snap.phase = .tapping then
      match pend.previousAvg with
      | some prevAvg =>
          if |avgOffset - prevAvg| ≤ STABILITY_THRESHOLD_MS then
            { pend with lockedAverage := some avgOffset, confirmationTaps := 1,
                        phase := .locked, previousAvg := some avgOffset }
          else { pend with previousAvg := some avgOffset }
      | none => { pend with previousAvg := some avgOffset }
    else if snap.phase = .locked then
      if STABILITY_THRESHOLD_MS < |avgOffset - (snap.lockedAverage.getD avgOffset)| then
        { pend with phase := .tapping, lockedAverage := none, confirmationTaps := 0,
                    previousAvg := some avgOffset }
      else pend
    else pend

/-- The confirmation effect of src/unnamed/part_001, run against the
render snapshot `snap` and applying its queued updates to the pending
state `pend`: once the snapshot shows `locked` with
`CONFIRMATION_BEATS` confirmation taps, stop the metronome and report
`detectedLatency = Math.round(lockedAverage)`.  It runs after the
progress effect, so its `setPhase('done')` wins over a phase update the
progress effect queued in the same round. -/
def confirmationEffect (snap pend : CalibState) : CalibState :=
  if snap.phase = .locked ∧ CONFIRMATION_BEATS ≤ snap.confirmationTaps then
    { pend with detectedLatency := some (jsRound (snap.lockedAverage.getD 0)),
                phase := .done }
  else pend

/-- One commit round: `prev` is the previous render's snapshot, `cur`
the current one.  Each effect runs exactly when one of its dependencies
changed (`Object.is` on numbers and phases is value equality, and the
`offsets` array is replaced exactly when its contents change), in
declaration order, reading `cur` and accumulating queued updates. -/
def effectsRound (prev cur : CalibState) : CalibState :=
  let afterProgress :=
    if prev.offsets = cur.offsets ∧ prev.phase = cur.phase ∧
        prev.lockedAverage = cur.lockedAverage
    then cur
    else progressEffect cur cur
  if prev.phase = cur.phase ∧ prev.confirmationTaps = cur.confirmationTaps ∧
      prev.lockedAverage = cur.lockedAverage
  then afterProgress
  else confirmationEffect cur afterProgress

/-- Commit rounds iterated: each round's result becomes the next render,
compared against the round's input for dependency changes. -/
def effectsCascade : ℕ → CalibState → CalibState → CalibState
  | 0, _, cur => cur
  | fuel + 1, prev, cur => effectsCascade fuel cur (effectsRound prev cur)

/-- One accepted tap: `handleTap` commits the appended offset (and,
while `locked`, the incremented `confirmationTaps`), then the effect
rounds run until the state settles.  Four rounds always suffice: a
cascade changes the state at most twice (a lock, revert or completion,
then possibly the immediate re-lock after a revert), after which a
round leaves the state unchanged and every later round sees equal
dependencies and does nothing.  Taps outside `tapping`/`locked` are
ignored. -/
def tap (s : CalibState) (offsetMs : ℚ) : CalibState :=
  if s.phase = .tapping ∨ s.phase = .locked then
    effectsCascade 4 s
      { s with offsets := s.offsets ++ [offsetMs],
               confirmationTaps :=
                 if s.phase = .locked then s.confirmationTaps + 1
                 else s.confirmationTaps }
  else s

/-- Feed a list of tap offsets in order. -/
def feedTaps (s : CalibState) (taps : List ℚ) : CalibState := taps.foldl tap s

/-- The overlay's initial session (`ready`, everything empty). -/
def calibReady : CalibState :=
  { phase := .ready, offsets := [], lockedAverage := none, confirmationTaps := 0,
    previousAvg := none, detectedLatency := none }

/-- `startCalibration` of src/unnamed/part_001: enter `counting` with a
cleared session (`detectedLatency` is not reset by the code). -/
def startCalibration (s : CalibState) : CalibState :=
  { s with phase := .counting, offsets := [], lockedAverage := none,
           confirmationTaps := 0, previousAvg := none }

/-- The `onCountInComplete` callback of src/unnamed/part_001: enter
`tapping`. -/
def countInCompleteCalib (s : CalibState) : CalibState :=
  { s with phase := .tapping }

/-- A fresh calibration session that has reached the tapping phase. -/
def calibTapping : CalibState := countInCompleteCalib (startCalibration calibReady)

/-! Helper lemmas: evaluating `jsRound`, and concrete metronome runs used
by the closed counterexamples and witnesses below. -/

/-- Evaluation rule for `jsRound` at a concrete rational. -/
theorem jsRound_eq (q : ℚ) (n : ℤ) (h1 : (n : ℚ) ≤ q + 1/2) (h2 : q + 1/2 < (n : ℚ) + 1) :
    jsRound q = n := by
  unfold jsRound
  rw [Int.floor_eq_iff]
  exact ⟨by exact_mod_cast h1, by exact_mod_cast h2⟩

/-- The metronome after `setBpm 60` on the initial state. -/
def metM1 : MetronomeState :=
  { isPlaying := false, bpm := 60, startTime := none, currentBeat := 0,
    isCountingIn := false, countInBeatsRemaining := 0, nextScheduledBeat := 0,
    audioLatencyMs := 0 }

/-- The metronome just after `start()` at `now = 0` with BPM 60:
`startTime = 4000`, count-in armed at beat `-4`. -/
def metM2 : MetronomeState :=
  { isPlaying := true, bpm := 60, startTime := some 4000, currentBeat := -4,
    isCountingIn := true, countInBeatsRemaining := 4, nextScheduledBeat := -3,
    audioLatencyMs := 0 }

/-- `metM2` after the count-in beat `-3` fired. -/
def metM3 : MetronomeState :=
  { isPlaying := true, bpm := 60, startTime := some 4000, currentBeat := -3,
    isCountingIn := true, countInBeatsRemaining := 3, nextScheduledBeat := -2,
    audioLatencyMs := 0 }

/-- `metM3` after the count-in beat `-2` fired. -/
def metM4 : MetronomeState :=
  { isPlaying := true, bpm := 60, startTime := some 4000, currentBeat := -2,
    isCountingIn := true, countInBeatsRemaining := 2, nextScheduledBeat := -1,
    audioLatencyMs := 0 }

/-- `metM4` after the count-in beat `-1` fired. -/
def metM5 : MetronomeState :=
  { isPlaying := true, bpm := 60, startTime := some 4000, currentBeat := -1,
    isCountingIn := true, countInBeatsRemaining := 1, nextScheduledBeat := 0,
    audioLatencyMs := 0 }

/-- `metM5` after beat `0` fired: count-in over. -/
def metM6 : MetronomeState :=
  { isPlaying := true, bpm := 60, startTime := some 4000, currentBeat := 0,
    isCountingIn := false, countInBeatsRemaining := 0, nextScheduledBeat := 1,
    audioLatencyMs := 0 }

theorem metEval1 : Metronome.setBpm metInitial 60 = metM1 := by
  norm_num [Metronome.setBpm, metInitial, metM1, min_def, max_def]

theorem metEval2 : Metronome.start metM1 0 = (metM2, [MetEvent.countIn 4]) := by
  norm_num [Metronome.start, Metronome.getBeatIntervalMs, bpmToIntervalMs,
    DEFAULT_COUNT_IN_BEATS, metM1, metM2]

theorem metEval3 : Metronome.tick metM2 1000 = (metM3, [MetEvent.countIn 3]) := by
  norm_num [Metronome.tick, Metronome.getBeatIntervalMs, bpmToIntervalMs,
    AUDIO_LOOKAHEAD_MS, metM2, metM3, Int.natAbs_neg, Int.natAbs_ofNat]

theorem metEval4 : Metronome.tick metM3 2000 = (metM4, [MetEvent.countIn 2]) := by
  norm_num [Metronome.tick, Metronome.getBeatIntervalMs, bpmToIntervalMs,
    AUDIO_LOOKAHEAD_MS, metM3, metM4, Int.natAbs_neg, Int.natAbs_ofNat]

theorem metEval5 : Metronome.tick metM4 3000 = (metM5, [MetEvent.countIn 1]) := by
  norm_num [Metronome.tick, Metronome.getBeatIntervalMs, bpmToIntervalMs,
    AUDIO_LOOKAHEAD_MS, metM4, metM5, Int.natAbs_neg, Int.natAbs_ofNat]

theorem metEval6 :
    Metronome.tick metM5 4000 = (metM6, [MetEvent.countInComplete, MetEvent.beat 0 4000]) := by
  norm_num [Metronome.tick, Metronome.getBeatIntervalMs, bpmToIntervalMs,
    AUDIO_LOOKAHEAD_MS, metM5, metM6]

theorem metEval7 :
    Metronome.tick (Metronome.setBpm metM2 120) 1000 = (Metronome.setBpm metM2 120, []) := by
  norm_num [Metronome.tick, Metronome.setBpm, Metronome.getBeatIntervalMs, bpmToIntervalMs,
    AUDIO_LOOKAHEAD_MS, metM2, min_def, max_def]

theorem metRunEval2 :
    metRun metInitial [MetOp.setBpm 60, MetOp.start 0] = (metM2, [MetEvent.countIn 4]) := by
  simp only [metRun, metStep, metEval1, metEval2, List.nil_append, List.append_nil]

theorem metRunEval5 :
    (metRun metInitial
      [MetOp.setBpm 60, MetOp.start 0, MetOp.tick 1000, MetOp.tick 2000, MetOp.tick 3000]).1
      = metM5 := by
  simp only [metRun, metStep, metEval1, metEval2, metEval3, metEval4, metEval5]

theorem metRunEval6 :
    (metRun metInitial
      [MetOp.setBpm 60, MetOp.start 0, MetOp.tick 1000, MetOp.tick 2000, MetOp.tick 3000,
       MetOp.tick 4000]).1 = metM6 := by
  simp only [metRun, metStep, metEval1, metEval2, metEval3, metEval4, metEval5, metEval6]

/-- The scheduler invariant preserved by every operation: the count-in
flag tracks the sign of `currentBeat`; while playing, the next scheduled
beat is the successor of the current one and a start time exists; while
idle, the beat state is reset. -/
def MetInv (s : MetronomeState) : Prop :=
  (s.isCountingIn = true ↔ s.currentBeat < 0) ∧
  (s.isPlaying = true → s.nextScheduledBeat = s.currentBeat + 1) ∧
  (s.isPlaying = false → s.currentBeat = 0 ∧ s.isCountingIn = false ∧ s.startTime = none) ∧
  (s.isPlaying = true → s.startTime ≠ none)

theorem metInv_initial : MetInv metInitial := by
  simp [MetInv, metInitial]

theorem metInv_step (s : MetronomeState) (op : MetOp) (h : MetInv s) :
    MetInv (metStep s op).1 := by
  obtain ⟨pl, bpm, st, cb, ci, rem, nxt, lat⟩ := s
  obtain ⟨h1, h2, h3, h4⟩ := h
  simp only at h1 h2 h3 h4
  cases op with
  | start now =>
      cases pl with
      | true => exact ⟨h1, h2, h3, h4⟩
      | false =>
          simp [metStep, Metronome.start, MetInv, DEFAULT_COUNT_IN_BEATS]
  | stop =>
      cases pl with
      | true => simp [metStep, Metronome.stop, MetInv]
      | false => exact ⟨h1, h2, h3, h4⟩
  | setBpm bpm2 =>
      exact ⟨h1, h2, h3, h4⟩
  | setAudioLatency latencyMs =>
      exact ⟨h1, h2, h3, h4⟩
  | tick now =>
      cases pl with
      | false => exact ⟨h1, h2, h3, h4⟩
      | true =>
          cases st with
          | none => exact ⟨h1, h2, h3, h4⟩
          | some t =>
              simp only [metStep, Metronome.tick, Metronome.getBeatIntervalMs,
                Bool.true_eq_false, if_false]
              by_cases hfire :
                  t + (nxt : ℚ) * bpmToIntervalMs bpm - AUDIO_LOOKAHEAD_MS ≤ now
              · rw [if_pos hfire]
                have hnxt : nxt = cb + 1 := h2 rfl
                by_cases hneg : nxt < 0
                · rw [if_pos hneg]
                  refine ⟨?_, by simp [hnxt], by simp, by simp⟩
                  simp only [hneg, iff_true]
                  simpa using h1.mpr (by omega)
                · rw [if_neg hneg]
                  by_cases hci : ci
                  · simp only [hci, if_true]
                    refine ⟨by simp; omega, by simp [hnxt], by simp, by simp⟩
                  · simp only [hci, Bool.false_eq_true, if_false]
                    refine ⟨?_, by simp [hnxt], by simp, by simp⟩
                    simp only [hci, Bool.false_eq_true, false_iff] at h1 ⊢
                    omega
              · rw [if_neg hfire]
                exact ⟨h1, h2, h3, h4⟩

theorem metInv_run (s : MetronomeState) (h : MetInv s) (ops : List MetOp) :
    MetInv (metRun s ops).1 := by
  induction ops generalizing s with
  | nil => exact h
  | cons op ops ih => exact ih _ (metInv_step s op h)

theorem metStep_setLatency_comm (s : MetronomeState) (latencyMs : ℚ) (op : MetOp)
    (h : op.isSetLatency = false) :
    metStep (Metronome.setAudioLatency s latencyMs) op =
      (Metronome.setAudioLatency (metStep s op).1 latencyMs, (metStep s op).2) := by
  obtain ⟨pl, bpm, st, cb, ci, rem, nxt, lat⟩ := s
  cases op with
  | start now =>
      cases pl with
      | true => rfl
      | false => rfl
  | stop =>
      cases pl with
      | true => rfl
      | false => rfl
  | setBpm bpm2 => rfl
  | setAudioLatency l2 => simp [MetOp.isSetLatency] at h
  | tick now =>
      cases pl with
      | false => rfl
      | true =>
          cases st with
          | none => rfl
          | some t =>
              simp only [metStep, Metronome.tick, Metronome.setAudioLatency,
                Metronome.getBeatIntervalMs, Bool.true_eq_false, if_false]
              by_cases hfire : t + (nxt : ℚ) * bpmToIntervalMs bpm - AUDIO_LOOKAHEAD_MS ≤ now
              · simp only [if_pos hfire]
                by_cases hneg : nxt < 0
                · simp only [if_pos hneg]
                · simp only [if_neg hneg]
                  cases ci with
                  | true => rfl
                  | false => rfl
              · simp only [if_neg hfire]

theorem metRun_setLatency_comm (ops : List MetOp) (h : ∀ op ∈ ops, op.isSetLatency = false)
    (s : MetronomeState) (latencyMs : ℚ) :
    metRun (Metronome.setAudioLatency s latencyMs) ops =
      (Metronome.setAudioLatency (metRun s ops).1 latencyMs, (metRun s ops).2) := by
  induction ops generalizing s with
  | nil => rfl
  | cons op ops ih =>
      have hop : op.isSetLatency = false := h op (List.mem_cons_self op ops)
      have hops : ∀ o ∈ ops, o.isSetLatency = false := fun o ho => h o (List.mem_cons_of_mem op ho)
      simp only [metRun, metStep_setLatency_comm s latencyMs op hop, ih hops]

/-! Helper lemmas for the effect cascade, and step-by-step evaluation of
the calibration scenario taps `[40, 42, 41, 43, 40, 44, 41, 42]`
followed by sixteen taps of `42`. -/

theorem effectsRound_self (s : CalibState) : effectsRound s s = s := by
  simp [effectsRound]

theorem effectsCascade_four (p c : CalibState) :
    effectsCascade 4 p c =
      (let r1 := effectsRound p c
       let r2 := effectsRound c r1
       let r3 := effectsRound r1 r2
       effectsRound r2 r3) := rfl


theorem calibEval1 :
    tap calibTapping 40 =
    { phase := .tapping, offsets := [40],
      lockedAverage := none, confirmationTaps := 0,
      previousAvg := none, detectedLatency := none } := by
  have hstart : calibTapping =
      { phase := .tapping, offsets := [],
        lockedAverage := none, confirmationTaps := 0,
        previousAvg := none, detectedLatency := none } := rfl
  rw [hstart]
  have h0 : tap
      { phase := .tapping, offsets := [],
        lockedAverage := none, confirmationTaps := 0,
        previousAvg := none, detectedLatency := none } 40 =
      effectsCascade 4
        { phase := .tapping, offsets := [],
          lockedAverage := none, confirmationTaps := 0,
          previousAvg := none, detectedLatency := none }
        { phase := .tapping, offsets := [40],
          lockedAverage := none, confirmationTaps := 0,
          previousAvg := none, detectedLatency := none } := by
    norm_num [tap]
    try simp
  have h1 : effectsRound
      { phase := .tapping, offsets := [],
        lockedAverage := none, confirmationTaps := 0,
        previousAvg := none, detectedLatency := none }
      { phase := .tapping, offsets := [40],
        lockedAverage := none, confirmationTaps := 0,
        previousAvg := none, detectedLatency := none } =
      { phase := .tapping, offsets := [40],
        lockedAverage := none, confirmationTaps := 0,
        previousAvg := none, detectedLatency := none } := by
    norm_num [effectsRound, progressEffect, confirmationEffect, calculateAverageOffset,
      STABILITY_THRESHOLD_MS, CONFIRMATION_BEATS, MIN_TAPS_BEFORE_LOCK, abs_le, lt_abs]
    try simp
  rw [h0]
  simp only [effectsCascade_four]
  rw [h1]
  simp only [effectsRound_self]

theorem calibEval2 :
    tap
      { phase := .tapping, offsets := [40],
        lockedAverage := none, confirmationTaps := 0,
        previousAvg := none, detectedLatency := none } 42 =
    { phase := .tapping, offsets := [40, 42],
      lockedAverage := none, confirmationTaps := 0,
      previousAvg := none, detectedLatency := none } := by
  have h0 : tap
      { phase := .tapping, offsets := [40],
        lockedAverage := none, confirmationTaps := 0,
        previousAvg := none, detectedLatency := none } 42 =
      effectsCascade 4
        { phase := .tapping, offsets := [40],
          lockedAverage := none, confirmationTaps := 0,
          previousAvg := none, detectedLatency := none }
        { phase := .tapping, offsets := [40, 42],
          lockedAverage := none, confirmationTaps := 0,
          previousAvg := none, detectedLatency := none } := by
    norm_num [tap]
    try simp
  have h1 : effectsRound
      { phase := .tapping, offsets := [40],
        lockedAverage := none, confirmationTaps := 0,
        previousAvg := none, detectedLatency := none }
      { phase := .tapping, offsets := [40, 42],
        lockedAverage := none, confirmationTaps := 0,
        previousAvg := none, detectedLatency := none } =
      { phase := .tapping, offsets := [40, 42],
        lockedAverage := none, confirmationTaps := 0,
        previousAvg := none, detectedLatency := none } := by
    norm_num [effectsRound, progressEffect, confirmationEffect, calculateAverageOffset,
      STABILITY_THRESHOLD_MS, CONFIRMATION_BEATS, MIN_TAPS_BEFORE_LOCK, abs_le, lt_abs]
    try simp
  rw [h0]
  simp only [effectsCascade_four]
  rw [h1]
  simp only [effectsRound_self]

theorem calibEval3 :
    tap
      { phase := .tapping, offsets := [40, 42],
        lockedAverage := none, confirmationTaps := 0,
        previousAvg := none, detectedLatency := none } 41 =
    { phase := .tapping, offsets := [40, 42, 41],
      lockedAverage := none, confirmationTaps := 0,
      previousAvg := none, detectedLatency := none } := by
  have h0 : tap
      { phase := .tapping, offsets := [40, 42],
        lockedAverage := none, confirmationTaps := 0,
        previousAvg := none, detectedLatency := none } 41 =
      effectsCascade 4
        { phase := .tapping, offsets := [40, 42],
          lockedAverage := none, confirmationTaps := 0,
          previousAvg := none, detectedLatency := none }
        { phase := .tapping, offsets := [40, 42, 41],
          lockedAverage := none, confirmationTaps := 0,
          previousAvg := none, detectedLatency := none } := by
    norm_num [tap]
    try simp
  have h1 : effectsRound
      { phase := .tapping, offsets := [40, 42],
        lockedAverage := none, confirmationTaps := 0,
        previousAvg := none, detectedLatency := none }
      { phase := .tapping, offsets := [40, 42, 41],
        lockedAverage := none, confirmationTaps := 0,
        previousAvg := none, detectedLatency := none } =
      { phase := .tapping, offsets := [40, 42, 41],
        lockedAverage := none, confirmationTaps := 0,
        previousAvg := none, detectedLatency := none } := by
    norm_num [effectsRound, progressEffect, confirmationEffect, calculateAverageOffset,
      STABILITY_THRESHOLD_MS, CONFIRMATION_BEATS, MIN_TAPS_BEFORE_LOCK, abs_le, lt_abs]
    try simp
  rw [h0]
  simp only [effectsCascade_four]
  rw [h1]
  simp only [effectsRound_self]

theorem calibEval4 :
    tap
      { phase := .tapping, offsets := [40, 42, 41],
        lockedAverage := none, confirmationTaps := 0,
        previousAvg := none, detectedLatency := none } 43 =
    { phase := .tapping, offsets := [40, 42, 41, 43],
      lockedAverage := none, confirmationTaps := 0,
      previousAvg := none, detectedLatency := none } := by
  have h0 : tap
      { phase := .tapping, offsets := [40, 42, 41],
        lockedAverage := none, confirmationTaps := 0,
        previousAvg := none, detectedLatency := none } 43 =
      effectsCascade 4
        { phase := .tapping, offsets := [40, 42, 41],
          lockedAverage := none, confirmationTaps := 0,
          previousAvg := none, detectedLatency := none }
        { phase := .tapping, offsets := [40, 42, 41, 43],
          lockedAverage := none, confirmationTaps := 0,
          previousAvg := none, detectedLatency := none } := by
    norm_num [tap]
    try simp
  have h1 : effectsRound
      { phase := .tapping, offsets := [40, 42, 41],
        lockedAverage := none, confirmationTaps := 0,
        previousAvg := none, detectedLatency := none }
      { phase := .tapping, offsets := [40, 42, 41, 43],
        lockedAverage := none, confirmationTaps := 0,
        previousAvg := none, detectedLatency := none } =
      { phase := .tapping, offsets := [40, 42, 41, 43],
        lockedAverage := none, confirmationTaps := 0,
        previousAvg := none, detectedLatency := none } := by
    norm_num [effectsRound, progressEffect, confirmationEffect, calculateAverageOffset,
      STABILITY_THRESHOLD_MS, CONFIRMATION_BEATS, MIN_TAPS_BEFORE_LOCK, abs_le, lt_abs]
    try simp
  rw [h0]
  simp only [effectsCascade_four]
  rw [h1]
  simp only [effectsRound_self]

theorem calibEval5 :
    tap
      { phase := .tapping, offsets := [40, 42, 41, 43],
        lockedAverage := none, confirmationTaps := 0,
        previousAvg := none, detectedLatency := none } 40 =
    { phase := .tapping, offsets := [40, 42, 41, 43, 40],
      lockedAverage := none, confirmationTaps := 0,
      previousAvg := none, detectedLatency := none } := by
  have h0 : tap
      { phase := .tapping, offsets := [40, 42, 41, 43],
        lockedAverage := none, confirmationTaps := 0,
        previousAvg := none, detectedLatency := none } 40 =
      effectsCascade 4
        { phase := .tapping, offsets := [40, 42, 41, 43],
          lockedAverage := none, confirmationTaps := 0,
          previousAvg := none, detectedLatency := none }
        { phase := .tapping, offsets := [40, 42, 41, 43, 40],
          lockedAverage := none, confirmationTaps := 0,
          previousAvg := none, detectedLatency := none } := by
    norm_num [tap]
    try simp
  have h1 : effectsRound
      { phase := .tapping, offsets := [40, 42, 41, 43],
        lockedAverage := none, confirmationTaps := 0,
        previousAvg := none, detectedLatency := none }
      { phase := .tapping, offsets := [40, 42, 41, 43, 40],
        lockedAverage := none, confirmationTaps := 0,
        previousAvg := none, detectedLatency := none } =
      { phase := .tapping, offsets := [40, 42, 41, 43, 40],
        lockedAverage := none, confirmationTaps := 0,
        previousAvg := none, detectedLatency := none } := by
    norm_num [effectsRound, progressEffect, confirmationEffect, calculateAverageOffset,
      STABILITY_THRESHOLD_MS, CONFIRMATION_BEATS, MIN_TAPS_BEFORE_LOCK, abs_le, lt_abs]
    try simp
  rw [h0]
  simp only [effectsCascade_four]
  rw [h1]
  simp only [effectsRound_self]

theorem calibEval6 :
    tap
      { phase := .tapping, offsets := [40, 42, 41, 43, 40],
        lockedAverage := none, confirmationTaps := 0,
        previousAvg := none, detectedLatency := none } 44 =
    { phase := .tapping, offsets := [40, 42, 41, 43, 40, 44],
      lockedAverage := none, confirmationTaps := 0,
      previousAvg := none, detectedLatency := none } := by
  have h0 : tap
      { phase := .tapping, offsets := [40, 42, 41, 43, 40],
        lockedAverage := none, confirmationTaps := 0,
        previousAvg := none, detectedLatency := none } 44 =
      effectsCascade 4
        { phase := .tapping, offsets := [40, 42, 41, 43, 40],
          lockedAverage := none, confirmationTaps := 0,
          previousAvg := none, detectedLatency := none }
        { phase := .tapping, offsets := [40, 42, 41, 43, 40, 44],
          lockedAverage := none, confirmationTaps := 0,
          previousAvg := none, detectedLatency := none } := by
    norm_num [tap]
    try simp
  have h1 : effectsRound
      { phase := .tapping, offsets := [40, 42, 41, 43, 40],
        lockedAverage := none, confirmationTaps := 0,
        previousAvg := none, detectedLatency := none }
      { phase := .tapping, offsets := [40, 42, 41, 43, 40, 44],
        lockedAverage := none, confirmationTaps := 0,
        previousAvg := none, detectedLatency := none } =
      { phase := .tapping, offsets := [40, 42, 41, 43, 40, 44],
        lockedAverage := none, confirmationTaps := 0,
        previousAvg := none, detectedLatency := none } := by
    norm_num [effectsRound, progressEffect, confirmationEffect, calculateAverageOffset,
      STABILITY_THRESHOLD_MS, CONFIRMATION_BEATS, MIN_TAPS_BEFORE_LOCK, abs_le, lt_abs]
    try simp
  rw [h0]
  simp only [effectsCascade_four]
  rw [h1]
  simp only [effectsRound_self]

theorem calibEval7 :
    tap
      { phase := .tapping, offsets := [40, 42, 41, 43, 40, 44],
        lockedAverage := none, confirmationTaps := 0,
        previousAvg := none, detectedLatency := none } 41 =
    { phase := .tapping, offsets := [40, 42, 41, 43, 40, 44, 41],
      lockedAverage := none, confirmationTaps := 0,
      previousAvg := none, detectedLatency := none } := by
  have h0 : tap
      { phase := .tapping, offsets := [40, 42, 41, 43, 40, 44],
        lockedAverage := none, confirmationTaps := 0,
        previousAvg := none, detectedLatency := none } 41 =
      effectsCascade 4
        { phase := .tapping, offsets := [40, 42, 41, 43, 40, 44],
          lockedAverage := none, confirmationTaps := 0,
          previousAvg := none, detectedLatency := none }
        { phase := .tapping, offsets := [40, 42, 41, 43, 40, 44, 41],
          lockedAverage := none, confirmationTaps := 0,
          previousAvg := none, detectedLatency := none } := by
    norm_num [tap]
    try simp
  have h1 : effectsRound
      { phase := .tapping, offsets := [40, 42, 41, 43, 40, 44],
        lockedAverage := none, confirmationTaps := 0,
        previousAvg := none, detectedLatency := none }
      { phase := .tapping, offsets := [40, 42, 41, 43, 40, 44, 41],
        lockedAverage := none, confirmationTaps := 0,
        previousAvg := none, detectedLatency := none } =
      { phase := .tapping, offsets := [40, 42, 41, 43, 40, 44, 41],
        lockedAverage := none, confirmationTaps := 0,
        previousAvg := none, detectedLatency := none } := by
    norm_num [effectsRound, progressEffect, confirmationEffect, calculateAverageOffset,
      STABILITY_THRESHOLD_MS, CONFIRMATION_BEATS, MIN_TAPS_BEFORE_LOCK, abs_le, lt_abs]
    try simp
  rw [h0]
  simp only [effectsCascade_four]
  rw [h1]
  simp only [effectsRound_self]

theorem calibEval8 :
    tap
      { phase := .tapping, offsets := [40, 42, 41, 43, 40, 44, 41],
        lockedAverage := none, confirmationTaps := 0,
        previousAvg := none, detectedLatency := none } 42 =
    { phase := .tapping, offsets := [40, 42, 41, 43, 40, 44, 41, 42],
      lockedAverage := none, confirmationTaps := 0,
      previousAvg := some (333/8), detectedLatency := none } := by
  have h0 : tap
      { phase := .tapping, offsets := [40, 42, 41, 43, 40, 44, 41],
        lockedAverage := none, confirmationTaps := 0,
        previousAvg := none, detectedLatency := none } 42 =
      effectsCascade 4
        { phase := .tapping, offsets := [40, 42, 41, 43, 40, 44, 41],
          lockedAverage := none, confirmationTaps := 0,
          previousAvg := none, detectedLatency := none }
        { phase := .tapping, offsets := [40, 42, 41, 43, 40, 44, 41, 42],
          lockedAverage := none, confirmationTaps := 0,
          previousAvg := none, detectedLatency := none } := by
    norm_num [tap]
    try simp
  have h1 : effectsRound
      { phase := .tapping, offsets := [40, 42, 41, 43, 40, 44, 41],
        lockedAverage := none, confirmationTaps := 0,
        previousAvg := none, detectedLatency := none }
      { phase := .tapping, offsets := [40, 42, 41, 43, 40, 44, 41, 42],
        lockedAverage := none, confirmationTaps := 0,
        previousAvg := none, detectedLatency := none } =
      { phase := .tapping, offsets := [40, 42, 41, 43, 40, 44, 41, 42],
        lockedAverage := none, confirmationTaps := 0,
        previousAvg := some (333/8), detectedLatency := none } := by
    norm_num [effectsRound, progressEffect, confirmationEffect, calculateAverageOffset,
      STABILITY_THRESHOLD_MS, CONFIRMATION_BEATS, MIN_TAPS_BEFORE_LOCK, abs_le, lt_abs]
    try simp
  have h2 : effectsRound
      { phase := .tapping, offsets := [40, 42, 41, 43, 40, 44, 41, 42],
        lockedAverage := none, confirmationTaps := 0,
        previousAvg := none, detectedLatency := none }
      { phase := .tapping, offsets := [40, 42, 41, 43, 40, 44, 41, 42],
        lockedAverage := none, confirmationTaps := 0,
        previousAvg := some (333/8), detectedLatency := none } =
      { phase := .tapping, offsets := [40, 42, 41, 43, 40, 44, 41, 42],
        lockedAverage := none, confirmationTaps := 0,
        previousAvg := some (333/8), detectedLatency := none } := by
    norm_num [effectsRound, progressEffect, confirmationEffect, calculateAverageOffset,
      STABILITY_THRESHOLD_MS, CONFIRMATION_BEATS, MIN_TAPS_BEFORE_LOCK, abs_le, lt_abs]
    try simp
  rw [h0]
  simp only [effectsCascade_four]
  rw [h1, h2]
  simp only [effectsRound_self]

theorem calibEval9 :
    tap
      { phase := .tapping, offsets := [40, 42, 41, 43, 40, 44, 41, 42],
        lockedAverage := none, confirmationTaps := 0,
        previousAvg := some (333/8), detectedLatency := none } 42 =
    { phase := .locked, offsets := [40, 42, 41, 43, 40, 44, 41, 42, 42],
      lockedAverage := some (125/3), confirmationTaps := 1,
      previousAvg := some (125/3), detectedLatency := none } := by
  have h0 : tap
      { phase := .tapping, offsets := [40, 42, 41, 43, 40, 44, 41, 42],
        lockedAverage := none, confirmationTaps := 0,
        previousAvg := some (333/8), detectedLatency := none } 42 =
      effectsCascade 4
        { phase := .tapping, offsets := [40, 42, 41, 43, 40, 44, 41, 42],
          lockedAverage := none, confirmationTaps := 0,
          previousAvg := some (333/8), detectedLatency := none }
        { phase := .tapping, offsets := [40, 42, 41, 43, 40, 44, 41, 42, 42],
          lockedAverage := none, confirmationTaps := 0,
          previousAvg := some (333/8), detectedLatency := none } := by
    norm_num [tap]
    try simp
  have h1 : effectsRound
      { phase := .tapping, offsets := [40, 42, 41, 43, 40, 44, 41, 42],
        lockedAverage := none, confirmationTaps := 0,
        previousAvg := some (333/8), detectedLatency := none }
      { phase := .tapping, offsets := [40, 42, 41, 43, 40, 44, 41, 42, 42],
        lockedAverage := none, confirmationTaps := 0,
        previousAvg := some (333/8), detectedLatency := none } =
      { phase := .locked, offsets := [40, 42, 41, 43, 40, 44, 41, 42, 42],
        lockedAverage := some (125/3), confirmationTaps := 1,
        previousAvg := some (125/3), detectedLatency := none } := by
    norm_num [effectsRound, progressEffect, confirmationEffect, calculateAverageOffset,
      STABILITY_THRESHOLD_MS, CONFIRMATION_BEATS, MIN_TAPS_BEFORE_LOCK, abs_le, lt_abs]
    try simp
  have h2 : effectsRound
      { phase := .tapping, offsets := [40, 42, 41, 43, 40, 44, 41, 42, 42],
        lockedAverage := none, confirmationTaps := 0,
        previousAvg := some (333/8), detectedLatency := none }
      { phase := .locked, offsets := [40, 42, 41, 43, 40, 44, 41, 42, 42],
        lockedAverage := some (125/3), confirmationTaps := 1,
        previousAvg := some (125/3), detectedLatency := none } =
      { phase := .locked, offsets := [40, 42, 41, 43, 40, 44, 41, 42, 42],
        lockedAverage := some (125/3), confirmationTaps := 1,
        previousAvg := some (125/3), detectedLatency := none } := by
    norm_num [effectsRound, progressEffect, confirmationEffect, calculateAverageOffset,
      STABILITY_THRESHOLD_MS, CONFIRMATION_BEATS, MIN_TAPS_BEFORE_LOCK, abs_le, lt_abs]
    try simp
  rw [h0]
  simp only [effectsCascade_four]
  rw [h1, h2]
  simp only [effectsRound_self]

theorem calibEval10 :
    tap
      { phase := .locked, offsets := [40, 42, 41, 43, 40, 44, 41, 42, 42],
        lockedAverage := some (125/3), confirmationTaps := 1,
        previousAvg := some (125/3), detectedLatency := none } 42 =
    { phase := .locked, offsets := [40, 42, 41, 43, 40, 44, 41, 42, 42, 42],
      lockedAverage := some (125/3), confirmationTaps := 2,
      previousAvg := some (125/3), detectedLatency := none } := by
  have h0 : tap
      { phase := .locked, offsets := [40, 42, 41, 43, 40, 44, 41, 42, 42],
        lockedAverage := some (125/3), confirmationTaps := 1,
        previousAvg := some (125/3), detectedLatency := none } 42 =
      effectsCascade 4
        { phase := .locked, offsets := [40, 42, 41, 43, 40, 44, 41, 42, 42],
          lockedAverage := some (125/3), confirmationTaps := 1,
          previousAvg := some (125/3), detectedLatency := none }
        { phase := .locked, offsets := [40, 42, 41, 43, 40, 44, 41, 42, 42, 42],
          lockedAverage := some (125/3), confirmationTaps := 2,
          previousAvg := some (125/3), detectedLatency := none } := by
    norm_num [tap]
    try simp
  have h1 : effectsRound
      { phase := .locked, offsets := [40, 42, 41, 43, 40, 44, 41, 42, 42],
        lockedAverage := some (125/3), confirmationTaps := 1,
        previousAvg := some (125/3), detectedLatency := none }
      { phase := .locked, offsets := [40, 42, 41, 43, 40, 44, 41, 42, 42, 42],
        lockedAverage := some (125/3), confirmationTaps := 2,
        previousAvg := some (125/3), detectedLatency := none } =
      { phase := .locked, offsets := [40, 42, 41, 43, 40, 44, 41, 42, 42, 42],
        lockedAverage := some (125/3), confirmationTaps := 2,
        previousAvg := some (125/3), detectedLatency := none } := by
    norm_num [effectsRound, progressEffect, confirmationEffect, calculateAverageOffset,
      STABILITY_THRESHOLD_MS, CONFIRMATION_BEATS, MIN_TAPS_BEFORE_LOCK, abs_le, lt_abs]
    try simp
  rw [h0]
  simp only [effectsCascade_four]
  rw [h1]
  simp only [effectsRound_self]

theorem calibEval11 :
    tap
      { phase := .locked, offsets := [40, 42, 41, 43, 40, 44, 41, 42, 42, 42],
        lockedAverage := some (125/3), confirmationTaps := 2,
        previousAvg := some (125/3), detectedLatency := none } 42 =
    { phase := .locked, offsets := [40, 42, 41, 43, 40, 44, 41, 42, 42, 42, 42],
      lockedAverage := some (125/3), confirmationTaps := 3,
      previousAvg := some (125/3), detectedLatency := none } := by
  have h0 : tap
      { phase := .locked, offsets := [40, 42, 41, 43, 40, 44, 41, 42, 42, 42],
        lockedAverage := some (125/3), confirmationTaps := 2,
        previousAvg := some (125/3), detectedLatency := none } 42 =
      effectsCascade 4
        { phase := .locked, offsets := [40, 42, 41, 43, 40, 44, 41, 42, 42, 42],
          lockedAverage := some (125/3), confirmationTaps := 2,
          previousAvg := some (125/3), detectedLatency := none }
        { phase := .locked, offsets := [40, 42, 41, 43, 40, 44, 41, 42, 42, 42, 42],
          lockedAverage := some (125/3), confirmationTaps := 3,
          previousAvg := some (125/3), detectedLatency := none } := by
    norm_num [tap]
    try simp
  have h1 : effectsRound
      { phase := .locked, offsets := [40, 42, 41, 43, 40, 44, 41, 42, 42, 42],
        lockedAverage := some (125/3), confirmationTaps := 2,
        previousAvg := some (125/3), detectedLatency := none }
      { phase := .locked, offsets := [40, 42, 41, 43, 40, 44, 41, 42, 42, 42, 42],
        lockedAverage := some (125/3), confirmationTaps := 3,
        previousAvg := some (125/3), detectedLatency := none } =
      { phase := .locked, offsets := [40, 42, 41, 43, 40, 44, 41, 42, 42, 42, 42],
        lockedAverage := some (125/3), confirmationTaps := 3,
        previousAvg := some (125/3), detectedLatency := none } := by
    norm_num [effectsRound, progressEffect, confirmationEffect, calculateAverageOffset,
      STABILITY_THRESHOLD_MS, CONFIRMATION_BEATS, MIN_TAPS_BEFORE_LOCK, abs_le, lt_abs]
    try simp
  rw [h0]
  simp only [effectsCascade_four]
  rw [h1]
  simp only [effectsRound_self]

theorem calibEval12 :
    tap
      { phase := .locked, offsets := [40, 42, 41, 43, 40, 44, 41, 42, 42, 42, 42],
        lockedAverage := some (125/3), confirmationTaps := 3,
        previousAvg := some (125/3), detectedLatency := none } 42 =
    { phase := .locked, offsets := [40, 42, 41, 43, 40, 44, 41, 42, 42, 42, 42, 42],
      lockedAverage := some (125/3), confirmationTaps := 4,
      previousAvg := some (125/3), detectedLatency := none } := by
  have h0 : tap
      { phase := .locked, offsets := [40, 42, 41, 43, 40, 44, 41, 42, 42, 42, 42],
        lockedAverage := some (125/3), confirmationTaps := 3,
        previousAvg := some (125/3), detectedLatency := none } 42 =
      effectsCascade 4
        { phase := .locked, offsets := [40, 42, 41, 43, 40, 44, 41, 42, 42, 42, 42],
          lockedAverage := some (125/3), confirmationTaps := 3,
          previousAvg := some (125/3), detectedLatency := none }
        { phase := .locked, offsets := [40, 42, 41, 43, 40, 44, 41, 42, 42, 42, 42, 42],
          lockedAverage := some (125/3), confirmationTaps := 4,
          previousAvg := some (125/3), detectedLatency := none } := by
    norm_num [tap]
    try simp
  have h1 : effectsRound
      { phase := .locked, offsets := [40, 42, 41, 43, 40, 44, 41, 42, 42, 42, 42],
        lockedAverage := some (125/3), confirmationTaps := 3,
        previousAvg := some (125/3), detectedLatency := none }
      { phase := .locked, offsets := [40, 42, 41, 43, 40, 44, 41, 42, 42, 42, 42, 42],
        lockedAverage := some (125/3), confirmationTaps := 4,
        previousAvg := some (125/3), detectedLatency := none } =
      { phase := .locked, offsets := [40, 42, 41, 43, 40, 44, 41, 42, 42, 42, 42, 42],
        lockedAverage := some (125/3), confirmationTaps := 4,
        previousAvg := some (125/3), detectedLatency := none } := by
    norm_num [effectsRound, progressEffect, confirmationEffect, calculateAverageOffset,
      STABILITY_THRESHOLD_MS, CONFIRMATION_BEATS, MIN_TAPS_BEFORE_LOCK, abs_le, lt_abs]
    try simp
  rw [h0]
  simp only [effectsCascade_four]
  rw [h1]
  simp only [effectsRound_self]

theorem calibEval13 :
    tap
      { phase := .locked, offsets := [40, 42, 41, 43, 40, 44, 41, 42, 42, 42, 42, 42],
        lockedAverage := some (125/3), confirmationTaps := 4,
        previousAvg := some (125/3), detectedLatency := none } 42 =
    { phase := .locked, offsets := [40, 42, 41, 43, 40, 44, 41, 42, 42, 42, 42, 42, 42],
      lockedAverage := some (125/3), confirmationTaps := 5,
      previousAvg := some (125/3), detectedLatency := none } := by
  have h0 : tap
      { phase := .locked, offsets := [40, 42, 41, 43, 40, 44, 41, 42, 42, 42, 42, 42],
        lockedAverage := some (125/3), confirmationTaps := 4,
        previousAvg := some (125/3), detectedLatency := none } 42 =
      effectsCascade 4
        { phase := .locked, offsets := [40, 42, 41, 43, 40, 44, 41, 42, 42, 42, 42, 42],
          lockedAverage := some (125/3), confirmationTaps := 4,
          previousAvg := some (125/3), detectedLatency := none }
        { phase := .locked, offsets := [40, 42, 41, 43, 40, 44, 41, 42, 42, 42, 42, 42, 42],
          lockedAverage := some (125/3), confirmationTaps := 5,
          previousAvg := some (125/3), detectedLatency := none } := by
    norm_num [tap]
    try simp
  have h1 : effectsRound
      { phase := .locked, offsets := [40, 42, 41, 43, 40, 44, 41, 42, 42, 42, 42, 42],
        lockedAverage := some (125/3), confirmationTaps := 4,
        previousAvg := some (125/3), detectedLatency := none }
      { phase := .locked, offsets := [40, 42, 41, 43, 40, 44, 41, 42, 42, 42, 42, 42, 42],
        lockedAverage := some (125/3), confirmationTaps := 5,
        previousAvg := some (125/3), detectedLatency := none } =
      { phase := .locked, offsets := [40, 42, 41, 43, 40, 44, 41, 42, 42, 42, 42, 42, 42],
        lockedAverage := some (125/3), confirmationTaps := 5,
        previousAvg := some (125/3), detectedLatency := none } := by
    norm_num [effectsRound, progressEffect, confirmationEffect, calculateAverageOffset,
      STABILITY_THRESHOLD_MS, CONFIRMATION_BEATS, MIN_TAPS_BEFORE_LOCK, abs_le, lt_abs]
    try simp
  rw [h0]
  simp only [effectsCascade_four]
  rw [h1]
  simp only [effectsRound_self]

theorem calibEval14 :
    tap
      { phase := .locked, offsets := [40, 42, 41, 43, 40, 44, 41, 42, 42, 42, 42, 42, 42],
        lockedAverage := some (125/3), confirmationTaps := 5,
        previousAvg := some (125/3), detectedLatency := none } 42 =
    { phase := .locked, offsets := [40, 42, 41, 43, 40, 44, 41, 42, 42, 42, 42, 42, 42, 42],
      lockedAverage := some (125/3), confirmationTaps := 6,
      previousAvg := some (125/3), detectedLatency := none } := by
  have h0 : tap
      { phase := .locked, offsets := [40, 42, 41, 43, 40, 44, 41, 42, 42, 42, 42, 42, 42],
        lockedAverage := some (125/3), confirmationTaps := 5,
        previousAvg := some (125/3), detectedLatency := none } 42 =
      effectsCascade 4
        { phase := .locked, offsets := [40, 42, 41, 43, 40, 44, 41, 42, 42, 42, 42, 42, 42],
          lockedAverage := some (125/3), confirmationTaps := 5,
          previousAvg := some (125/3), detectedLatency := none }
        { phase := .locked, offsets := [40, 42, 41, 43, 40, 44, 41, 42, 42, 42, 42, 42, 42, 42],
          lockedAverage := some (125/3), confirmationTaps := 6,
          previousAvg := some (125/3), detectedLatency := none } := by
    norm_num [tap]
    try simp
  have h1 : effectsRound
      { phase := .locked, offsets := [40, 42, 41, 43, 40, 44, 41, 42, 42, 42, 42, 42, 42],
        lockedAverage := some (125/3), confirmationTaps := 5,
        previousAvg := some (125/3), detectedLatency := none }
      { phase := .locked, offsets := [40, 42, 41, 43, 40, 44, 41, 42, 42, 42, 42, 42, 42, 42],
        lockedAverage := some (125/3), confirmationTaps := 6,
        previousAvg := some (125/3), detectedLatency := none } =
      { phase := .locked, offsets := [40, 42, 41, 43, 40, 44, 41, 42, 42, 42, 42, 42, 42, 42],
        lockedAverage := some (125/3), confirmationTaps := 6,
        previousAvg := some (125/3), detectedLatency := none } := by
    norm_num [effectsRound, progressEffect, confirmationEffect, calculateAverageOffset,
      STABILITY_THRESHOLD_MS, CONFIRMATION_BEATS, MIN_TAPS_BEFORE_LOCK, abs_le, lt_abs]
    try simp
  rw [h0]
  simp only [effectsCascade_four]
  rw [h1]
  simp only [effectsRound_self]

theorem calibEval15 :
    tap
      { phase := .locked, offsets := [40, 42, 41, 43, 40, 44, 41, 42, 42, 42, 42, 42, 42, 42],
        lockedAverage := some (125/3), confirmationTaps := 6,
        previousAvg := some (125/3), detectedLatency := none } 42 =
    { phase := .locked, offsets := [40, 42, 41, 43, 40, 44, 41, 42, 42, 42, 42, 42, 42, 42, 42],
      lockedAverage := some (125/3), confirmationTaps := 7,
      previousAvg := some (125/3), detectedLatency := none } := by
  have h0 : tap
      { phase := .locked, offsets := [40, 42, 41, 43, 40, 44, 41, 42, 42, 42, 42, 42, 42, 42],
        lockedAverage := some (125/3), confirmationTaps := 6,
        previousAvg := some (125/3), detectedLatency := none } 42 =
      effectsCascade 4
        { phase := .locked, offsets := [40, 42, 41, 43, 40, 44, 41, 42, 42, 42, 42, 42, 42, 42],
          lockedAverage := some (125/3), confirmationTaps := 6,
          previousAvg := some (125/3), detectedLatency := none }
        { phase := .locked, offsets := [40, 42, 41, 43, 40, 44, 41, 42, 42, 42, 42, 42, 42, 42, 42],
          lockedAverage := some (125/3), confirmationTaps := 7,
          previousAvg := some (125/3), detectedLatency := none } := by
    norm_num [tap]
    try simp
  have h1 : effectsRound
      { phase := .locked, offsets := [40, 42, 41, 43, 40, 44, 41, 42, 42, 42, 42, 42, 42, 42],
        lockedAverage := some (125/3), confirmationTaps := 6,
        previousAvg := some (125/3), detectedLatency := none }
      { phase := .locked, offsets := [40, 42, 41, 43, 40, 44, 41, 42, 42, 42, 42, 42, 42, 42, 42],
        lockedAverage := some (125/3), confirmationTaps := 7,
        previousAvg := some (125/3), detectedLatency := none } =
      { phase := .locked, offsets := [40, 42, 41, 43, 40, 44, 41, 42, 42, 42, 42, 42, 42, 42, 42],
        lockedAverage := some (125/3), confirmationTaps := 7,
        previousAvg := some (125/3), detectedLatency := none } := by
    norm_num [effectsRound, progressEffect, confirmationEffect, calculateAverageOffset,
      STABILITY_THRESHOLD_MS, CONFIRMATION_BEATS, MIN_TAPS_BEFORE_LOCK, abs_le, lt_abs]
    try simp
  rw [h0]
  simp only [effectsCascade_four]
  rw [h1]
  simp only [effectsRound_self]

theorem calibEval16 :
    tap
      { phase := .locked, offsets := [40, 42, 41, 43, 40, 44, 41, 42, 42, 42, 42, 42, 42, 42, 42],
        lockedAverage := some (125/3), confirmationTaps := 7,
        previousAvg := some (125/3), detectedLatency := none } 42 =
    { phase := .locked, offsets := [40, 42, 41, 43, 40, 44, 41, 42, 42, 42, 42, 42, 42, 42, 42, 42],
      lockedAverage := some (125/3), confirmationTaps := 8,
      previousAvg := some (125/3), detectedLatency := none } := by
  have h0 : tap
      { phase := .locked, offsets := [40, 42, 41, 43, 40, 44, 41, 42, 42, 42, 42, 42, 42, 42, 42],
        lockedAverage := some (125/3), confirmationTaps := 7,
        previousAvg := some (125/3), detectedLatency := none } 42 =
      effectsCascade 4
        { phase := .locked, offsets := [40, 42, 41, 43, 40, 44, 41, 42, 42, 42, 42, 42, 42, 42, 42],
          lockedAverage := some (125/3), confirmationTaps := 7,
          previousAvg := some (125/3), detectedLatency := none }
        { phase := .locked, offsets := [40, 42, 41, 43, 40, 44, 41, 42, 42, 42, 42, 42, 42, 42, 42, 42],
          lockedAverage := some (125/3), confirmationTaps := 8,
          previousAvg := some (125/3), detectedLatency := none } := by
    norm_num [tap]
    try simp
  have h1 : effectsRound
      { phase := .locked, offsets := [40, 42, 41, 43, 40, 44, 41, 42, 42, 42, 42, 42, 42, 42, 42],
        lockedAverage := some (125/3), confirmationTaps := 7,
        previousAvg := some (125/3), detectedLatency := none }
      { phase := .locked, offsets := [40, 42, 41, 43, 40, 44, 41, 42, 42, 42, 42, 42, 42, 42, 42, 42],
        lockedAverage := some (125/3), confirmationTaps := 8,
        previousAvg := some (125/3), detectedLatency := none } =
      { phase := .locked, offsets := [40, 42, 41, 43, 40, 44, 41, 42, 42, 42, 42, 42, 42, 42, 42, 42],
        lockedAverage := some (125/3), confirmationTaps := 8,
        previousAvg := some (125/3), detectedLatency := none } := by
    norm_num [effectsRound, progressEffect, confirmationEffect, calculateAverageOffset,
      STABILITY_THRESHOLD_MS, CONFIRMATION_BEATS, MIN_TAPS_BEFORE_LOCK, abs_le, lt_abs]
    try simp
  rw [h0]
  simp only [effectsCascade_four]
  rw [h1]
  simp only [effectsRound_self]

theorem calibEval17 :
    tap
      { phase := .locked, offsets := [40, 42, 41, 43, 40, 44, 41, 42, 42, 42, 42, 42, 42, 42, 42, 42],
        lockedAverage := some (125/3), confirmationTaps := 8,
        previousAvg := some (125/3), detectedLatency := none } 42 =
    { phase := .locked, offsets := [40, 42, 41, 43, 40, 44, 41, 42, 42, 42, 42, 42, 42, 42, 42, 42, 42],
      lockedAverage := some (125/3), confirmationTaps := 9,
      previousAvg := some (125/3), detectedLatency := none } := by
  have h0 : tap
      { phase := .locked, offsets := [40, 42, 41, 43, 40, 44, 41, 42, 42, 42, 42, 42, 42, 42, 42, 42],
        lockedAverage := some (125/3), confirmationTaps := 8,
        previousAvg := some (125/3), detectedLatency := none } 42 =
      effectsCascade 4
        { phase := .locked, offsets := [40, 42, 41, 43, 40, 44, 41, 42, 42, 42, 42, 42, 42, 42, 42, 42],
          lockedAverage := some (125/3), confirmationTaps := 8,
          previousAvg := some (125/3), detectedLatency := none }
        { phase := .locked, offsets := [40, 42, 41, 43, 40, 44, 41, 42, 42, 42, 42, 42, 42, 42, 42, 42, 42],
          lockedAverage := some (125/3), confirmationTaps := 9,
          previousAvg := some (125/3), detectedLatency := none } := by
    norm_num [tap]
    try simp
  have h1 : effectsRound
      { phase := .locked, offsets := [40, 42, 41, 43, 40, 44, 41, 42, 42, 42, 42, 42, 42, 42, 42, 42],
        lockedAverage := some (125/3), confirmationTaps := 8,
        previousAvg := some (125/3), detectedLatency := none }
      { phase := .locked, offsets := [40, 42, 41, 43, 40, 44, 41, 42, 42, 42, 42, 42, 42, 42, 42, 42, 42],
        lockedAverage := some (125/3), confirmationTaps := 9,
        previousAvg := some (125/3), detectedLatency := none } =
      { phase := .locked, offsets := [40, 42, 41, 43, 40, 44, 41, 42, 42, 42, 42, 42, 42, 42, 42, 42, 42],
        lockedAverage := some (125/3), confirmationTaps := 9,
        previousAvg := some (125/3), detectedLatency := none } := by
    norm_num [effectsRound, progressEffect, confirmationEffect, calculateAverageOffset,
      STABILITY_THRESHOLD_MS, CONFIRMATION_BEATS, MIN_TAPS_BEFORE_LOCK, abs_le, lt_abs]
    try simp
  rw [h0]
  simp only [effectsCascade_four]
  rw [h1]
  simp only [effectsRound_self]

theorem calibEval18 :
    tap
      { phase := .locked, offsets := [40, 42, 41, 43, 40, 44, 41, 42, 42, 42, 42, 42, 42, 42, 42, 42, 42],
        lockedAverage := some (125/3), confirmationTaps := 9,
        previousAvg := some (125/3), detectedLatency := none } 42 =
    { phase := .locked, offsets := [40, 42, 41, 43, 40, 44, 41, 42, 42, 42, 42, 42, 42, 42, 42, 42, 42, 42],
      lockedAverage := some (125/3), confirmationTaps := 10,
      previousAvg := some (125/3), detectedLatency := none } := by
  have h0 : tap
      { phase := .locked, offsets := [40, 42, 41, 43, 40, 44, 41, 42, 42, 42, 42, 42, 42, 42, 42, 42, 42],
        lockedAverage := some (125/3), confirmationTaps := 9,
        previousAvg := some (125/3), detectedLatency := none } 42 =
      effectsCascade 4
        { phase := .locked, offsets := [40, 42, 41, 43, 40, 44, 41, 42, 42, 42, 42, 42, 42, 42, 42, 42, 42],
          lockedAverage := some (125/3), confirmationTaps := 9,
          previousAvg := some (125/3), detectedLatency := none }
        { phase := .locked, offsets := [40, 42, 41, 43, 40, 44, 41, 42, 42, 42, 42, 42, 42, 42, 42, 42, 42, 42],
          lockedAverage := some (125/3), confirmationTaps := 10,
          previousAvg := some (125/3), detectedLatency := none } := by
    norm_num [tap]
    try simp
  have h1 : effectsRound
      { phase := .locked, offsets := [40, 42, 41, 43, 40, 44, 41, 42, 42, 42, 42, 42, 42, 42, 42, 42, 42],
        lockedAverage := some (125/3), confirmationTaps := 9,
        previousAvg := some (125/3), detectedLatency := none }
      { phase := .locked, offsets := [40, 42, 41, 43, 40, 44, 41, 42, 42, 42, 42, 42, 42, 42, 42, 42, 42, 42],
        lockedAverage := some (125/3), confirmationTaps := 10,
        previousAvg := some (125/3), detectedLatency := none } =
      { phase := .locked, offsets := [40, 42, 41, 43, 40, 44, 41, 42, 42, 42, 42, 42, 42, 42, 42, 42, 42, 42],
        lockedAverage := some (125/3), confirmationTaps := 10,
        previousAvg := some (125/3), detectedLatency := none } := by
    norm_num [effectsRound, progressEffect, confirmationEffect, calculateAverageOffset,
      STABILITY_THRESHOLD_MS, CONFIRMATION_BEATS, MIN_TAPS_BEFORE_LOCK, abs_le, lt_abs]
    try simp
  rw [h0]
  simp only [effectsCascade_four]
  rw [h1]
  simp only [effectsRound_self]

theorem calibEval19 :
    tap
      { phase := .locked, offsets := [40, 42, 41, 43, 40, 44, 41, 42, 42, 42, 42, 42, 42, 42, 42, 42, 42, 42],
        lockedAverage := some (125/3), confirmationTaps := 10,
        previousAvg := some (125/3), detectedLatency := none } 42 =
    { phase := .locked, offsets := [40, 42, 41, 43, 40, 44, 41, 42, 42, 42, 42, 42, 42, 42, 42, 42, 42, 42, 42],
      lockedAverage := some (125/3), confirmationTaps := 11,
      previousAvg := some (125/3), detectedLatency := none } := by
  have h0 : tap
      { phase := .locked, offsets := [40, 42, 41, 43, 40, 44, 41, 42, 42, 42, 42, 42, 42, 42, 42, 42, 42, 42],
        lockedAverage := some (125/3), confirmationTaps := 10,
        previousAvg := some (125/3), detectedLatency := none } 42 =
      effectsCascade 4
        { phase := .locked, offsets := [40, 42, 41, 43, 40, 44, 41, 42, 42, 42, 42, 42, 42, 42, 42, 42, 42, 42],
          lockedAverage := some (125/3), confirmationTaps := 10,
          previousAvg := some (125/3), detectedLatency := none }
        { phase := .locked, offsets := [40, 42, 41, 43, 40, 44, 41, 42, 42, 42, 42, 42, 42, 42, 42, 42, 42, 42, 42],
          lockedAverage := some (125/3), confirmationTaps := 11,
          previousAvg := some (125/3), detectedLatency := none } := by
    norm_num [tap]
    try simp
  have h1 : effectsRound
      { phase := .locked, offsets := [40, 42, 41, 43, 40, 44, 41, 42, 42, 42, 42, 42, 42, 42, 42, 42, 42, 42],
        lockedAverage := some (125/3), confirmationTaps := 10,
        previousAvg := some (125/3), detectedLatency := none }
      { phase := .locked, offsets := [40, 42, 41, 43, 40, 44, 41, 42, 42, 42, 42, 42, 42, 42, 42, 42, 42, 42, 42],
        lockedAverage := some (125/3), confirmationTaps := 11,
        previousAvg := some (125/3), detectedLatency := none } =
      { phase := .locked, offsets := [40, 42, 41, 43, 40, 44, 41, 42, 42, 42, 42, 42, 42, 42, 42, 42, 42, 42, 42],
        lockedAverage := some (125/3), confirmationTaps := 11,
        previousAvg := some (125/3), detectedLatency := none } := by
    norm_num [effectsRound, progressEffect, confirmationEffect, calculateAverageOffset,
      STABILITY_THRESHOLD_MS, CONFIRMATION_BEATS, MIN_TAPS_BEFORE_LOCK, abs_le, lt_abs]
    try simp
  rw [h0]
  simp only [effectsCascade_four]
  rw [h1]
  simp only [effectsRound_self]

theorem calibEval20 :
    tap
      { phase := .locked, offsets := [40, 42, 41, 43, 40, 44, 41, 42, 42, 42, 42, 42, 42, 42, 42, 42, 42, 42, 42],
        lockedAverage := some (125/3), confirmationTaps := 11,
        previousAvg := some (125/3), detectedLatency := none } 42 =
    { phase := .locked, offsets := [40, 42, 41, 43, 40, 44, 41, 42, 42, 42, 42, 42, 42, 42, 42, 42, 42, 42, 42, 42],
      lockedAverage := some (125/3), confirmationTaps := 12,
      previousAvg := some (125/3), detectedLatency := none } := by
  have h0 : tap
      { phase := .locked, offsets := [40, 42, 41, 43, 40, 44, 41, 42, 42, 42, 42, 42, 42, 42, 42, 42, 42, 42, 42],
        lockedAverage := some (125/3), confirmationTaps := 11,
        previousAvg := some (125/3), detectedLatency := none } 42 =
      effectsCascade 4
        { phase := .locked, offsets := [40, 42, 41, 43, 40, 44, 41, 42, 42, 42, 42, 42, 42, 42, 42, 42, 42, 42, 42],
          lockedAverage := some (125/3), confirmationTaps := 11,
          previousAvg := some (125/3), detectedLatency := none }
        { phase := .locked, offsets := [40, 42, 41, 43, 40, 44, 41, 42, 42, 42, 42, 42, 42, 42, 42, 42, 42, 42, 42, 42],
          lockedAverage := some (125/3), confirmationTaps := 12,
          previousAvg := some (125/3), detectedLatency := none } := by
    norm_num [tap]
    try simp
  have h1 : effectsRound
      { phase := .locked, offsets := [40, 42, 41, 43, 40, 44, 41, 42, 42, 42, 42, 42, 42, 42, 42, 42, 42, 42, 42],
        lockedAverage := some (125/3), confirmationTaps := 11,
        previousAvg := some (125/3), detectedLatency := none }
      { phase := .locked, offsets := [40, 42, 41, 43, 40, 44, 41, 42, 42, 42, 42, 42, 42, 42, 42, 42, 42, 42, 42, 42],
        lockedAverage := some (125/3), confirmationTaps := 12,
        previousAvg := some (125/3), detectedLatency := none } =
      { phase := .locked, offsets := [40, 42, 41, 43, 40, 44, 41, 42, 42, 42, 42, 42, 42, 42, 42, 42, 42, 42, 42, 42],
        lockedAverage := some (125/3), confirmationTaps := 12,
        previousAvg := some (125/3), detectedLatency := none } := by
    norm_num [effectsRound, progressEffect, confirmationEffect, calculateAverageOffset,
      STABILITY_THRESHOLD_MS, CONFIRMATION_BEATS, MIN_TAPS_BEFORE_LOCK, abs_le, lt_abs]
    try simp
  rw [h0]
  simp only [effectsCascade_four]
  rw [h1]
  simp only [effectsRound_self]

theorem calibEval21 :
    tap
      { phase := .locked, offsets := [40, 42, 41, 43, 40, 44, 41, 42, 42, 42, 42, 42, 42, 42, 42, 42, 42, 42, 42, 42],
        lockedAverage := some (125/3), confirmationTaps := 12,
        previousAvg := some (125/3), detectedLatency := none } 42 =
    { phase := .locked, offsets := [40, 42, 41, 43, 40, 44, 41, 42, 42, 42, 42, 42, 42, 42, 42, 42, 42, 42, 42, 42, 42],
      lockedAverage := some (125/3), confirmationTaps := 13,
      previousAvg := some (125/3), detectedLatency := none } := by
  have h0 : tap
      { phase := .locked, offsets := [40, 42, 41, 43, 40, 44, 41, 42, 42, 42, 42, 42, 42, 42, 42, 42, 42, 42, 42, 42],
        lockedAverage := some (125/3), confirmationTaps := 12,
        previousAvg := some (125/3), detectedLatency := none } 42 =
      effectsCascade 4
        { phase := .locked, offsets := [40, 42, 41, 43, 40, 44, 41, 42, 42, 42, 42, 42, 42, 42, 42, 42, 42, 42, 42, 42],
          lockedAverage := some (125/3), confirmationTaps := 12,
          previousAvg := some (125/3), detectedLatency := none }
        { phase := .locked, offsets := [40, 42, 41, 43, 40, 44, 41, 42, 42, 42, 42, 42, 42, 42, 42, 42, 42, 42, 42, 42, 42],
          lockedAverage := some (125/3), confirmationTaps := 13,
          previousAvg := some (125/3), detectedLatency := none } := by
    norm_num [tap]
    try simp
  have h1 : effectsRound
      { phase := .locked, offsets := [40, 42, 41, 43, 40, 44, 41, 42, 42, 42, 42, 42, 42, 42, 42, 42, 42, 42, 42, 42],
        lockedAverage := some (125/3), confirmationTaps := 12,
        previousAvg := some (125/3), detectedLatency := none }
      { phase := .locked, offsets := [40, 42, 41, 43, 40, 44, 41, 42, 42, 42, 42, 42, 42, 42, 42, 42, 42, 42, 42, 42, 42],
        lockedAverage := some (125/3), confirmationTaps := 13,
        previousAvg := some (125/3), detectedLatency := none } =
      { phase := .locked, offsets := [40, 42, 41, 43, 40, 44, 41, 42, 42, 42, 42, 42, 42, 42, 42, 42, 42, 42, 42, 42, 42],
        lockedAverage := some (125/3), confirmationTaps := 13,
        previousAvg := some (125/3), detectedLatency := none } := by
    norm_num [effectsRound, progressEffect, confirmationEffect, calculateAverageOffset,
      STABILITY_THRESHOLD_MS, CONFIRMATION_BEATS, MIN_TAPS_BEFORE_LOCK, abs_le, lt_abs]
    try simp
  rw [h0]
  simp only [effectsCascade_four]
  rw [h1]
  simp only [effectsRound_self]

theorem calibEval22 :
    tap
      { phase := .locked, offsets := [40, 42, 41, 43, 40, 44, 41, 42, 42, 42, 42, 42, 42, 42, 42, 42, 42, 42, 42, 42, 42],
        lockedAverage := some (125/3), confirmationTaps := 13,
        previousAvg := some (125/3), detectedLatency := none } 42 =
    { phase := .locked, offsets := [40, 42, 41, 43, 40, 44, 41, 42, 42, 42, 42, 42, 42, 42, 42, 42, 42, 42, 42, 42, 42, 42],
      lockedAverage := some (125/3), confirmationTaps := 14,
      previousAvg := some (125/3), detectedLatency := none } := by
  have h0 : tap
      { phase := .locked, offsets := [40, 42, 41, 43, 40, 44, 41, 42, 42, 42, 42, 42, 42, 42, 42, 42, 42, 42, 42, 42, 42],
        lockedAverage := some (125/3), confirmationTaps := 13,
        previousAvg := some (125/3), detectedLatency := none } 42 =
      effectsCascade 4
        { phase := .locked, offsets := [40, 42, 41, 43, 40, 44, 41, 42, 42, 42, 42, 42, 42, 42, 42, 42, 42, 42, 42, 42, 42],
          lockedAverage := some (125/3), confirmationTaps := 13,
          previousAvg := some (125/3), detectedLatency := none }
        { phase := .locked, offsets := [40, 42, 41, 43, 40, 44, 41, 42, 42, 42, 42, 42, 42, 42, 42, 42, 42, 42, 42, 42, 42, 42],
          lockedAverage := some (125/3), confirmationTaps := 14,
          previousAvg := some (125/3), detectedLatency := none } := by
    norm_num [tap]
    try simp
  have h1 : effectsRound
      { phase := .locked, offsets := [40, 42, 41, 43, 40, 44, 41, 42, 42, 42, 42, 42, 42, 42, 42, 42, 42, 42, 42, 42, 42],
        lockedAverage := some (125/3), confirmationTaps := 13,
        previousAvg := some (125/3), detectedLatency := none }
      { phase := .locked, offsets := [40, 42, 41, 43, 40, 44, 41, 42, 42, 42, 42, 42, 42, 42, 42, 42, 42, 42, 42, 42, 42, 42],
        lockedAverage := some (125/3), confirmationTaps := 14,
        previousAvg := some (125/3), detectedLatency := none } =
      { phase := .locked, offsets := [40, 42, 41, 43, 40, 44, 41, 42, 42, 42, 42, 42, 42, 42, 42, 42, 42, 42, 42, 42, 42, 42],
        lockedAverage := some (125/3), confirmationTaps := 14,
        previousAvg := some (125/3), detectedLatency := none } := by
    norm_num [effectsRound, progressEffect, confirmationEffect, calculateAverageOffset,
      STABILITY_THRESHOLD_MS, CONFIRMATION_BEATS, MIN_TAPS_BEFORE_LOCK, abs_le, lt_abs]
    try simp
  rw [h0]
  simp only [effectsCascade_four]
  rw [h1]
  simp only [effectsRound_self]

theorem calibEval23 :
    tap
      { phase := .locked, offsets := [40, 42, 41, 43, 40, 44, 41, 42, 42, 42, 42, 42, 42, 42, 42, 42, 42, 42, 42, 42, 42, 42],
        lockedAverage := some (125/3), confirmationTaps := 14,
        previousAvg := some (125/3), detectedLatency := none } 42 =
    { phase := .locked, offsets := [40, 42, 41, 43, 40, 44, 41, 42, 42, 42, 42, 42, 42, 42, 42, 42, 42, 42, 42, 42, 42, 42, 42],
      lockedAverage := some (125/3), confirmationTaps := 15,
      previousAvg := some (125/3), detectedLatency := none } := by
  have h0 : tap
      { phase := .locked, offsets := [40, 42, 41, 43, 40, 44, 41, 42, 42, 42, 42, 42, 42, 42, 42, 42, 42, 42, 42, 42, 42, 42],
        lockedAverage := some (125/3), confirmationTaps := 14,
        previousAvg := some (125/3), detectedLatency := none } 42 =
      effectsCascade 4
        { phase := .locked, offsets := [40, 42, 41, 43, 40, 44, 41, 42, 42, 42, 42, 42, 42, 42, 42, 42, 42, 42, 42, 42, 42, 42],
          lockedAverage := some (125/3), confirmationTaps := 14,
          previousAvg := some (125/3), detectedLatency := none }
        { phase := .locked, offsets := [40, 42, 41, 43, 40, 44, 41, 42, 42, 42, 42, 42, 42, 42, 42, 42, 42, 42, 42, 42, 42, 42, 42],
          lockedAverage := some (125/3), confirmationTaps := 15,
          previousAvg := some (125/3), detectedLatency := none } := by
    norm_num [tap]
    try simp
  have h1 : effectsRound
      { phase := .locked, offsets := [40, 42, 41, 43, 40, 44, 41, 42, 42, 42, 42, 42, 42, 42, 42, 42, 42, 42, 42, 42, 42, 42],
        lockedAverage := some (125/3), confirmationTaps := 14,
        previousAvg := some (125/3), detectedLatency := none }
      { phase := .locked, offsets := [40, 42, 41, 43, 40, 44, 41, 42, 42, 42, 42, 42, 42, 42, 42, 42, 42, 42, 42, 42, 42, 42, 42],
        lockedAverage := some (125/3), confirmationTaps := 15,
        previousAvg := some (125/3), detectedLatency := none } =
      { phase := .locked, offsets := [40, 42, 41, 43, 40, 44, 41, 42, 42, 42, 42, 42, 42, 42, 42, 42, 42, 42, 42, 42, 42, 42, 42],
        lockedAverage := some (125/3), confirmationTaps := 15,
        previousAvg := some (125/3), detectedLatency := none } := by
    norm_num [effectsRound, progressEffect, confirmationEffect, calculateAverageOffset,
      STABILITY_THRESHOLD_MS, CONFIRMATION_BEATS, MIN_TAPS_BEFORE_LOCK, abs_le, lt_abs]
    try simp
  rw [h0]
  simp only [effectsCascade_four]
  rw [h1]
  simp only [effectsRound_self]

theorem calibEval24 :
    tap
      { phase := .locked, offsets := [40, 42, 41, 43, 40, 44, 41, 42, 42, 42, 42, 42, 42, 42, 42, 42, 42, 42, 42, 42, 42, 42, 42],
        lockedAverage := some (125/3), confirmationTaps := 15,
        previousAvg := some (125/3), detectedLatency := none } 42 =
    { phase := .done, offsets := [40, 42, 41, 43, 40, 44, 41, 42, 42, 42, 42, 42, 42, 42, 42, 42, 42, 42, 42, 42, 42, 42, 42, 42],
      lockedAverage := some (125/3), confirmationTaps := 16,
      previousAvg := some (125/3), detectedLatency := some (jsRound (125/3)) } := by
  have h0 : tap
      { phase := .locked, offsets := [40, 42, 41, 43, 40, 44, 41, 42, 42, 42, 42, 42, 42, 42, 42, 42, 42, 42, 42, 42, 42, 42, 42],
        lockedAverage := some (125/3), confirmationTaps := 15,
        previousAvg := some (125/3), detectedLatency := none } 42 =
      effectsCascade 4
        { phase := .locked, offsets := [40, 42, 41, 43, 40, 44, 41, 42, 42, 42, 42, 42, 42, 42, 42, 42, 42, 42, 42, 42, 42, 42, 42],
          lockedAverage := some (125/3), confirmationTaps := 15,
          previousAvg := some (125/3), detectedLatency := none }
        { phase := .locked, offsets := [40, 42, 41, 43, 40, 44, 41, 42, 42, 42, 42, 42, 42, 42, 42, 42, 42, 42, 42, 42, 42, 42, 42, 42],
          lockedAverage := some (125/3), confirmationTaps := 16,
          previousAvg := some (125/3), detectedLatency := none } := by
    norm_num [tap]
    try simp
  have h1 : effectsRound
      { phase := .locked, offsets := [40, 42, 41, 43, 40, 44, 41, 42, 42, 42, 42, 42, 42, 42, 42, 42, 42, 42, 42, 42, 42, 42, 42],
        lockedAverage := some (125/3), confirmationTaps := 15,
        previousAvg := some (125/3), detectedLatency := none }
      { phase := .locked, offsets := [40, 42, 41, 43, 40, 44, 41, 42, 42, 42, 42, 42, 42, 42, 42, 42, 42, 42, 42, 42, 42, 42, 42, 42],
        lockedAverage := some (125/3), confirmationTaps := 16,
        previousAvg := some (125/3), detectedLatency := none } =
      { phase := .done, offsets := [40, 42, 41, 43, 40, 44, 41, 42, 42, 42, 42, 42, 42, 42, 42, 42, 42, 42, 42, 42, 42, 42, 42, 42],
        lockedAverage := some (125/3), confirmationTaps := 16,
        previousAvg := some (125/3), detectedLatency := some (jsRound (125/3)) } := by
    norm_num [effectsRound, progressEffect, confirmationEffect, calculateAverageOffset,
      STABILITY_THRESHOLD_MS, CONFIRMATION_BEATS, MIN_TAPS_BEFORE_LOCK, abs_le, lt_abs]
    try simp
  have h2 : effectsRound
      { phase := .locked, offsets := [40, 42, 41, 43, 40, 44, 41, 42, 42, 42, 42, 42, 42, 42, 42, 42, 42, 42, 42, 42, 42, 42, 42, 42],
        lockedAverage := some (125/3), confirmationTaps := 16,
        previousAvg := some (125/3), detectedLatency := none }
      { phase := .done, offsets := [40, 42, 41, 43, 40, 44, 41, 42, 42, 42, 42, 42, 42, 42, 42, 42, 42, 42, 42, 42, 42, 42, 42, 42],
        lockedAverage := some (125/3), confirmationTaps := 16,
        previousAvg := some (125/3), detectedLatency := some (jsRound (125/3)) } =
      { phase := .done, offsets := [40, 42, 41, 43, 40, 44, 41, 42, 42, 42, 42, 42, 42, 42, 42, 42, 42, 42, 42, 42, 42, 42, 42, 42],
        lockedAverage := some (125/3), confirmationTaps := 16,
        previousAvg := some (125/3), detectedLatency := some (jsRound (125/3)) } := by
    norm_num [effectsRound, progressEffect, confirmationEffect, calculateAverageOffset,
      STABILITY_THRESHOLD_MS, CONFIRMATION_BEATS, MIN_TAPS_BEFORE_LOCK, abs_le, lt_abs]
    try simp
  rw [h0]
  simp only [effectsCascade_four]
  rw [h1, h2]
  simp only [effectsRound_self]

/-! The claim theorems. -/

/-- C8: `getAccuracyRating` is determined by thresholds on `|offsetMs|`:
at most 20 is perfect, at most 50 is good, at most 100 is okay, anything
larger is a miss; in particular `rating 20 = perfect`, `rating 21 = good`,
`rating (-100) = okay`, `rating 101 = miss`. -/
theorem getAccuracyRating_thresholds (offsetMs : ℚ) :
    (|offsetMs| ≤ 20 → (getAccuracyRating offsetMs).rating = Rating.perfect) ∧
    (20 < |offsetMs| → |offsetMs| ≤ 50 → (getAccuracyRating offsetMs).rating = Rating.good) ∧
    (50 < |offsetMs| → |offsetMs| ≤ 100 → (getAccuracyRating offsetMs).rating = Rating.okay) ∧
    (100 < |offsetMs| → (getAccuracyRating offsetMs).rating = Rating.miss) ∧
    (getAccuracyRating 20).rating = Rating.perfect ∧
    (getAccuracyRating 21).rating = Rating.good ∧
    (getAccuracyRating (-100)).rating = Rating.okay ∧
    (getAccuracyRating 101).rating = Rating.miss := by
  refine ⟨?_, ?_, ?_, ?_, ?_, ?_, ?_, ?_⟩
  · intro h1
    simp [getAccuracyRating, h1]
  · intro h1 h2
    simp [getAccuracyRating, h2, not_le.2 h1]
  · intro h1 h2
    have hn1 : ¬ |offsetMs| ≤ 20 := by push_neg; linarith
    have hn2 : ¬ |offsetMs| ≤ 50 := by push_neg; linarith
    simp [getAccuracyRating, h2, hn1, hn2]
  · intro h1
    have hn1 : ¬ |offsetMs| ≤ 20 := by push_neg; linarith
    have hn2 : ¬ |offsetMs| ≤ 50 := by push_neg; linarith
    have hn3 : ¬ |offsetMs| ≤ 100 := by push_neg; linarith
    simp [getAccuracyRating, hn1, hn2, hn3]
  · norm_num [getAccuracyRating]
  · norm_num [getAccuracyRating]
  · norm_num [getAccuracyRating, abs_of_nonpos]
  · norm_num [getAccuracyRating]

/-- C8 witness: the implication conjuncts of
`getAccuracyRating_thresholds` applied at `21` and `101`. -/
theorem getAccuracyRating_thresholds_witness :
    (getAccuracyRating 21).rating = Rating.good ∧
    (getAccuracyRating 101).rating = Rating.miss := by
  constructor
  · exact (getAccuracyRating_thresholds 21).2.1 (by norm_num) (by norm_num)
  · exact (getAccuracyRating_thresholds 101).2.2.2.1 (by norm_num)

/-- C2 counterexample: `Math.round` rounds half-points toward positive
infinity, not away from zero, so at `tapTime = -2500, startTime = 0,
beatIntervalMs = 1000` (`elapsed/interval = -2.5`) the code computes
`beatNumber = -2` and `offsetMs = -500`, while the claimed
round-half-away-from-zero convention would give `beatNumber = -3` and an
offset of `500`. -/
theorem calculateTimingOffset_round_cex :
    timingBeatNumber (-2500) 0 1000 = -2 ∧
    roundHalfAwayFromZero (((-2500 : ℚ) - 0) / 1000) = -3 ∧
    (calculateTimingOffset (-2500) 0 1000).offsetMs = -500 ∧
    (-2500 : ℚ) - (0 + (roundHalfAwayFromZero (((-2500 : ℚ) - 0) / 1000) : ℚ) * 1000) = 500 := by
  have h1 : timingBeatNumber (-2500) 0 1000 = -2 := by
    unfold timingBeatNumber
    exact jsRound_eq _ (-2) (by norm_num) (by norm_num)
  have h3 : jsRound (-(((-2500 : ℚ) - 0) / 1000)) = 3 :=
    jsRound_eq _ 3 (by norm_num) (by norm_num)
  have h2 : roundHalfAwayFromZero (((-2500 : ℚ) - 0) / 1000) = -3 := by
    unfold roundHalfAwayFromZero
    rw [if_neg (by norm_num)]
    unfold jsRound at h3
    rw [h3]
  refine ⟨h1, h2, ?_, ?_⟩
  · have hv : (calculateTimingOffset (-2500) 0 1000).offsetMs
        = -2500 - (0 + (timingBeatNumber (-2500) 0 1000 : ℚ) * 1000) := rfl
    rw [hv, h1]
    norm_num
  · rw [h2]
    norm_num

/-- C2 (amended): `calculateTimingOffset` computes
`elapsed = tapTime - startTime`, `beatNumber = round(elapsed/interval)`
where `round` is JavaScript's round-half-up (half-points toward positive
infinity, i.e. `beatNumber` is the unique integer with
`beatNumber - 1/2 <= elapsed/interval < beatNumber + 1/2`), then
`nearestBeatTime = startTime + beatNumber * interval` and
`offsetMs = tapTime - nearestBeatTime`; for `startTime = 0,
interval = 1000, tapTime = 2500` it yields `beatNumber = 3` and
`offsetMs = -500`. -/
theorem calculateTimingOffset_spec (tapTime startTime beatIntervalMs : ℚ)
    (hI : 0 < beatIntervalMs) :
    (calculateTimingOffset tapTime startTime beatIntervalMs).tapTime = tapTime ∧
    (calculateTimingOffset tapTime startTime beatIntervalMs).nearestBeatTime
      = startTime + (timingBeatNumber tapTime startTime beatIntervalMs : ℚ) * beatIntervalMs ∧
    (calculateTimingOffset tapTime startTime beatIntervalMs).offsetMs
      = tapTime - (calculateTimingOffset tapTime startTime beatIntervalMs).nearestBeatTime ∧
    ((timingBeatNumber tapTime startTime beatIntervalMs : ℚ) - 1/2
        ≤ (tapTime - startTime) / beatIntervalMs ∧
      (tapTime - startTime) / beatIntervalMs
        < (timingBeatNumber tapTime startTime beatIntervalMs : ℚ) + 1/2) ∧
    timingBeatNumber 2500 0 1000 = 3 ∧
    (calculateTimingOffset 2500 0 1000).offsetMs = -500 := by
  have hb : timingBeatNumber 2500 0 1000 = 3 := by
    unfold timingBeatNumber
    exact jsRound_eq _ 3 (by norm_num) (by norm_num)
  refine ⟨rfl, rfl, rfl, ⟨?_, ?_⟩, hb, ?_⟩
  · have h := Int.floor_le ((tapTime - startTime) / beatIntervalMs + 1/2)
    unfold timingBeatNumber jsRound
    push_cast at h ⊢
    linarith
  · have h := Int.lt_floor_add_one ((tapTime - startTime) / beatIntervalMs + 1/2)
    unfold timingBeatNumber jsRound
    push_cast at h ⊢
    linarith
  · have hv : (calculateTimingOffset 2500 0 1000).offsetMs
        = 2500 - (0 + (timingBeatNumber 2500 0 1000 : ℚ) * 1000) := rfl
    rw [hv, hb]
    norm_num

/-- C2 witness: `calculateTimingOffset_spec` at
`tapTime = 2500, startTime = 0, beatIntervalMs = 1000`. -/
theorem calculateTimingOffset_spec_witness :
    (0 : ℚ) < 1000 ∧
    (timingBeatNumber 2500 0 1000 : ℚ) - 1/2 ≤ ((2500 : ℚ) - 0) / 1000 ∧
    timingBeatNumber 2500 0 1000 = 3 := by
  have h := calculateTimingOffset_spec 2500 0 1000 (by norm_num)
  exact ⟨by norm_num, h.2.2.2.1.1, h.2.2.2.2.1⟩

/-- C9: for a positive beat interval the reported offset never exceeds
half the interval in magnitude: the rounded beat really is nearest. -/
theorem calculateTimingOffset_half_interval (tapTime startTime beatIntervalMs : ℚ)
    (hI : 0 < beatIntervalMs) :
    |(calculateTimingOffset tapTime startTime beatIntervalMs).offsetMs|
      ≤ beatIntervalMs / 2 := by
  have hne : beatIntervalMs ≠ 0 := ne_of_gt hI
  set x : ℚ := (tapTime - startTime) / beatIntervalMs with hxdef
  have hval : (calculateTimingOffset tapTime startTime beatIntervalMs).offsetMs
      = tapTime - (startTime + (jsRound x : ℚ) * beatIntervalMs) := rfl
  have ht : tapTime = startTime + x * beatIntervalMs := by
    rw [hxdef]
    field_simp
  have hoff : (calculateTimingOffset tapTime startTime beatIntervalMs).offsetMs
      = (x - (jsRound x : ℚ)) * beatIntervalMs := by
    rw [hval, ht]
    ring
  have hb1 : (jsRound x : ℚ) ≤ x + 1/2 := by
    unfold jsRound
    exact_mod_cast Int.floor_le (x + 1/2)
  have hb2 : x + 1/2 < (jsRound x : ℚ) + 1 := by
    unfold jsRound
    exact_mod_cast Int.lt_floor_add_one (x + 1/2)
  have habs : |x - (jsRound x : ℚ)| ≤ 1/2 :=
    abs_le.mpr ⟨by linarith, by linarith⟩
  rw [hoff, abs_mul, abs_of_pos hI]
  calc |x - (jsRound x : ℚ)| * beatIntervalMs
      ≤ (1/2) * beatIntervalMs := mul_le_mul_of_nonneg_right habs (le_of_lt hI)
    _ = beatIntervalMs / 2 := by ring

/-- C9 witness: `calculateTimingOffset_half_interval` at
`tapTime = 2500, startTime = 0, beatIntervalMs = 1000`. -/
theorem calculateTimingOffset_half_interval_witness :
    (0 : ℚ) < 1000 ∧
    |(calculateTimingOffset 2500 0 1000).offsetMs| ≤ (1000 : ℚ) / 2 :=
  ⟨by norm_num, calculateTimingOffset_half_interval 2500 0 1000 (by norm_num)⟩

/-- C5: `start()` on a non-playing scheduler sets `isPlaying`,
`isCountingIn`, `countInBeatsRemaining = 4`, `currentBeat = -4`,
`nextScheduledBeat = -3`, anchors
`startTime = now + 4 * (60000 / bpm)` (so `now + 4000` at BPM 60), and
synchronously emits the first count-in beat; `start()` while playing is a
silent no-op. -/
theorem start_contract (s : MetronomeState) (now : ℚ) :
    (s.isPlaying = false →
      Metronome.start s now =
        ({ s with isPlaying := true, isCountingIn := true, countInBeatsRemaining := 4,
                  currentBeat := -4, nextScheduledBeat := -3,
                  startTime := some (now + 4 * (60000 / s.bpm)) },
         [MetEvent.countIn 4])) ∧
    (s.isPlaying = true → Metronome.start s now = (s, [])) ∧
    (s.isPlaying = false → s.bpm = 60 →
      (Metronome.start s now).1.startTime = some (now + 4000)) := by
  obtain ⟨pl, bpm, st, cb, ci, rem, nxt, lat⟩ := s
  refine ⟨?_, ?_, ?_⟩
  · intro hp
    simp only at hp
    subst hp
    norm_num [Metronome.start, Metronome.getBeatIntervalMs, bpmToIntervalMs,
      DEFAULT_COUNT_IN_BEATS]
  · intro hp
    simp only at hp
    subst hp
    rfl
  · intro hp hbpm
    simp only at hp hbpm
    subst hp
    subst hbpm
    norm_num [Metronome.start, Metronome.getBeatIntervalMs, bpmToIntervalMs,
      DEFAULT_COUNT_IN_BEATS]

/-- C5 witness: `start_contract` on the stopped BPM-60 state `metM1` at
`now = 7`. -/
theorem start_contract_witness :
    metM1.isPlaying = false ∧ metM1.bpm = 60 ∧
    (Metronome.start metM1 7).1.startTime = some (7 + 4000) :=
  ⟨rfl, rfl, (start_contract metM1 7).2.2 rfl rfl⟩

/-- C1 counterexample: `tick` reads the interval from the current BPM, so
`setBpm` during playback does change the in-flight schedule: from the
playing state `metM2` (BPM 60, `startTime = 4000`, next beat `-3` due at
time 1000), a tick at `now = 1000` fires count-in beat `-3`, but after
`setBpm 120` the same tick fires nothing (the next beat moved to
time 2500). -/
theorem setBpm_mid_playback_cex :
    metM2.isPlaying = true ∧
    (Metronome.setBpm metM2 120).isPlaying = true ∧
    (Metronome.tick metM2 1000).2 = [MetEvent.countIn 3] ∧
    (Metronome.tick (Metronome.setBpm metM2 120) 1000).2 = [] := by
  refine ⟨rfl, rfl, ?_, ?_⟩
  · rw [metEval3]
  · rw [metEval7]

/-- C1 (amended): `setBpm` clamps to `[40, 200]` and changes only the
BPM field — `startTime`, `currentBeat` and `nextScheduledBeat` are kept —
but the new BPM takes effect on the very next `tick()`, not on the next
`start()`: a subsequent tick fires exactly when `now` has reached
`startTime + nextScheduledBeat * (60000 / clampedBpm) - 50`, so changing
the BPM mid-playback does rescale the in-flight schedule's future beat
times. -/
theorem setBpm_mid_playback (s : MetronomeState) (bpm now t : ℚ)
    (hp : s.isPlaying = true) (hst : s.startTime = some t) :
    (Metronome.setBpm s bpm).bpm = max 40 (min 200 bpm) ∧
    (Metronome.setBpm s bpm).startTime = s.startTime ∧
    (Metronome.setBpm s bpm).currentBeat = s.currentBeat ∧
    (Metronome.setBpm s bpm).nextScheduledBeat = s.nextScheduledBeat ∧
    (Metronome.setBpm s bpm).isPlaying = true ∧
    ((Metronome.tick (Metronome.setBpm s bpm) now).2 ≠ [] ↔
      t + (s.nextScheduledBeat : ℚ) * (60000 / max 40 (min 200 bpm)) - 50 ≤ now) := by
  obtain ⟨pl, bpm0, st, cb, ci, rem, nxt, lat⟩ := s
  simp only at hp hst
  subst hp
  subst hst
  refine ⟨rfl, rfl, rfl, rfl, rfl, ?_⟩
  simp only [Metronome.tick, Metronome.setBpm, Metronome.getBeatIntervalMs, bpmToIntervalMs,
    AUDIO_LOOKAHEAD_MS, Bool.true_eq_false, if_false]
  by_cases hfire : t + (nxt : ℚ) * (60000 / max 40 (min 200 bpm)) - 50 ≤ now
  · simp only [if_pos hfire]
    split_ifs <;> simp [hfire]
  · simp only [if_neg hfire]
    simp [hfire]

/-- C1 witness: `setBpm_mid_playback` on the playing state `metM2` with
`bpm = 120` at `now = 2460` (the rescheduled beat time is 2500, inside
the 50 ms lookahead). -/
theorem setBpm_mid_playback_witness :
    metM2.isPlaying = true ∧ metM2.startTime = some 4000 ∧
    (Metronome.setBpm metM2 120).bpm = 120 ∧
    (Metronome.tick (Metronome.setBpm metM2 120) 2460).2 ≠ [] := by
  have h := setBpm_mid_playback metM2 120 2460 4000 rfl rfl
  refine ⟨rfl, rfl, ?_, ?_⟩
  · rw [h.1]
    norm_num [min_def, max_def]
  · exact h.2.2.2.2.2.mpr (by norm_num [metM2, min_def, max_def])

/-- C4: the audio-latency value never interferes with scheduling: any
operation sequence without further `setAudioLatency` calls produces the
same event trace (beat indices and beat times included) and the same
state apart from the stored latency, whatever latency was set at the
beginning; the latency is observable only through
`getAdjustedStartTime = startTime + audioLatencyMs`. -/
theorem latency_noninterference (ops : List MetOp)
    (h : ∀ op ∈ ops, op.isSetLatency = false) (latencyMs : ℚ) :
    metRun (Metronome.setAudioLatency metInitial latencyMs) ops =
      (Metronome.setAudioLatency (metRun metInitial ops).1 latencyMs,
       (metRun metInitial ops).2) ∧
    Metronome.getAdjustedStartTime
      (metRun (Metronome.setAudioLatency metInitial latencyMs) ops).1 =
      Option.map (fun t => t + latencyMs) (metRun metInitial ops).1.startTime := by
  have hcomm := metRun_setLatency_comm ops h metInitial latencyMs
  refine ⟨hcomm, ?_⟩
  rw [hcomm]
  cases hs : (metRun metInitial ops).1.startTime with
  | none => simp [Metronome.getAdjustedStartTime, Metronome.setAudioLatency, hs]
  | some t => simp [Metronome.getAdjustedStartTime, Metronome.setAudioLatency, hs]

/-- C4 witness: `latency_noninterference` with latency 80 over
`setBpm 60; start at 0`: the events agree with the latency-free run and
`getAdjustedStartTime` returns `4000 + 80`. -/
theorem latency_noninterference_witness :
    (metRun (Metronome.setAudioLatency metInitial 80) [MetOp.setBpm 60, MetOp.start 0]).2
      = (metRun metInitial [MetOp.setBpm 60, MetOp.start 0]).2 ∧
    Metronome.getAdjustedStartTime
      (metRun (Metronome.setAudioLatency metInitial 80) [MetOp.setBpm 60, MetOp.start 0]).1
      = some 4080 := by
  have h := latency_noninterference [MetOp.setBpm 60, MetOp.start 0]
    (by
      intro op hop
      simp only [List.mem_cons, List.not_mem_nil, or_false] at hop
      rcases hop with rfl | rfl <;> rfl) 80
  constructor
  · rw [h.1]
  · rw [h.2, metRunEval2]
    norm_num [metM2]

theorem metInv_tick_props (s : MetronomeState) (h : MetInv s) :
    (s.isCountingIn = true ↔ s.currentBeat < 0) ∧
    (∀ now, s.isPlaying = true →
      s.currentBeat ≤ (Metronome.tick s now).1.currentBeat) ∧
    (∀ now, s.isCountingIn = true → (Metronome.tick s now).1.isCountingIn = false →
      (Metronome.tick s now).1.currentBeat = 0) ∧
    (∀ now, s.isCountingIn = false → (Metronome.tick s now).1.isCountingIn = false) := by
  obtain ⟨pl, bpm, st, cb, ci, rem, nxt, lat⟩ := s
  obtain ⟨h1, h2, h3, h4⟩ := h
  simp only at h1 h2 h3 h4
  refine ⟨h1, ?_, ?_, ?_⟩
  · intro now hp
    simp only at hp
    subst hp
    have hnxt : nxt = cb + 1 := h2 rfl
    cases st with
    | none => simp [Metronome.tick]
    | some t =>
        simp only [Metronome.tick, Metronome.getBeatIntervalMs, Bool.true_eq_false, if_false]
        by_cases hfire : t + (nxt : ℚ) * bpmToIntervalMs bpm - AUDIO_LOOKAHEAD_MS ≤ now
        · simp only [if_pos hfire]
          split_ifs <;> simp <;> omega
        · simp only [if_neg hfire]
          simp
  · intro now hci hfalse
    simp only at hci
    subst hci
    cases pl with
    | false =>
        have := h3 rfl
        simp at this
    | true =>
        have hnxt : nxt = cb + 1 := h2 rfl
        have hcb : cb < 0 := h1.mp rfl
        cases st with
        | none => simp [Metronome.tick] at hfalse
        | some t =>
            simp only [Metronome.tick, Metronome.getBeatIntervalMs,
              Bool.true_eq_false, if_false] at hfalse ⊢
            by_cases hfire : t + (nxt : ℚ) * bpmToIntervalMs bpm - AUDIO_LOOKAHEAD_MS ≤ now
            · simp only [if_pos hfire] at hfalse ⊢
              by_cases hneg : nxt < 0
              · simp only [if_pos hneg] at hfalse
                simp at hfalse
              · simp only [if_neg hneg] at hfalse ⊢
                simp
                omega
            · simp only [if_neg hfire] at hfalse
              simp at hfalse
  · intro now hci
    simp only at hci
    subst hci
    cases pl with
    | false => simp [Metronome.tick]
    | true =>
        cases st with
        | none => simp [Metronome.tick]
        | some t =>
            simp only [Metronome.tick, Metronome.getBeatIntervalMs,
              Bool.true_eq_false, if_false]
            by_cases hfire : t + (nxt : ℚ) * bpmToIntervalMs bpm - AUDIO_LOOKAHEAD_MS ≤ now
            · simp only [if_pos hfire]
              by_cases hneg : nxt < 0
              · simp only [if_pos hneg]
              · simp only [if_neg hneg]
                simp
            · simp only [if_neg hfire]

/-- C7: in every state reachable by metronome operations,
`isCountingIn` holds exactly when `currentBeat` is negative; a tick never
decreases `currentBeat` while playing; the only tick that turns
`isCountingIn` off is the one that fires beat 0; and once the count-in is
over, no further tick turns it back on. -/
theorem countIn_invariant (ops : List MetOp) :
    ((metRun metInitial ops).1.isCountingIn = true ↔
      (metRun metInitial ops).1.currentBeat < 0) ∧
    (∀ now, (metRun metInitial ops).1.isPlaying = true →
      (metRun metInitial ops).1.currentBeat
        ≤ (Metronome.tick (metRun metInitial ops).1 now).1.currentBeat) ∧
    (∀ now, (metRun metInitial ops).1.isCountingIn = true →
      (Metronome.tick (metRun metInitial ops).1 now).1.isCountingIn = false →
      (Metronome.tick (metRun metInitial ops).1 now).1.currentBeat = 0) ∧
    (∀ now, (metRun metInitial ops).1.isCountingIn = false →
      (Metronome.tick (metRun metInitial ops).1 now).1.isCountingIn = false) :=
  metInv_tick_props (metRun metInitial ops).1 (metInv_run metInitial metInv_initial ops)

/-- C7 witness: `countIn_invariant` along the run `setBpm 60; start;
tick 1000; tick 2000; tick 3000` (state `metM5`, count-in beat `-1`
fired) and one tick later (state `metM6`, beat 0 fired): the beat that
ends the count-in is beat 0, the beat index never decreased, and a
further tick at 4400 keeps the count-in off. -/
theorem countIn_invariant_witness :
    ((metRun metInitial [MetOp.setBpm 60, MetOp.start 0, MetOp.tick 1000, MetOp.tick 2000,
        MetOp.tick 3000]).1.isCountingIn = true ↔
      (metRun metInitial [MetOp.setBpm 60, MetOp.start 0, MetOp.tick 1000, MetOp.tick 2000,
        MetOp.tick 3000]).1.currentBeat < 0) ∧
    (metRun metInitial [MetOp.setBpm 60, MetOp.start 0, MetOp.tick 1000, MetOp.tick 2000,
        MetOp.tick 3000]).1.currentBeat
      ≤ (Metronome.tick (metRun metInitial [MetOp.setBpm 60, MetOp.start 0, MetOp.tick 1000,
        MetOp.tick 2000, MetOp.tick 3000]).1 4000).1.currentBeat ∧
    (Metronome.tick (metRun metInitial [MetOp.setBpm 60, MetOp.start 0, MetOp.tick 1000,
        MetOp.tick 2000, MetOp.tick 3000]).1 4000).1.currentBeat = 0 ∧
    (Metronome.tick (metRun metInitial [MetOp.setBpm 60, MetOp.start 0, MetOp.tick 1000,
        MetOp.tick 2000, MetOp.tick 3000, MetOp.tick 4000]).1 4400).1.isCountingIn = false := by
  have h5 := countIn_invariant [MetOp.setBpm 60, MetOp.start 0, MetOp.tick 1000,
    MetOp.tick 2000, MetOp.tick 3000]
  have h6 := countIn_invariant [MetOp.setBpm 60, MetOp.start 0, MetOp.tick 1000,
    MetOp.tick 2000, MetOp.tick 3000, MetOp.tick 4000]
  refine ⟨h5.1, h5.2.1 4000 ?_, h5.2.2.1 4000 ?_ ?_, h6.2.2.2 4400 ?_⟩
  · rw [metRunEval5]
    rfl
  · rw [metRunEval5]
    rfl
  · rw [metRunEval5, metEval6]
    rfl
  · rw [metRunEval6]
    rfl

/-- C10: `getAdjustedStartTime` returns `none` exactly when the scheduler
is not playing (before the first `start()` and after any `stop()`), and
otherwise returns `startTime + audioLatencyMs`. -/
theorem getAdjustedStartTime_contract (ops : List MetOp) :
    (Metronome.getAdjustedStartTime (metRun metInitial ops).1 = none ↔
      (metRun metInitial ops).1.isPlaying = false) ∧
    (∀ t, (metRun metInitial ops).1.startTime = some t →
      Metronome.getAdjustedStartTime (metRun metInitial ops).1
        = some (t + (metRun metInitial ops).1.audioLatencyMs)) := by
  have hInv := metInv_run metInitial metInv_initial ops
  constructor
  · obtain ⟨h1, h2, h3, h4⟩ := hInv
    cases hp : (metRun metInitial ops).1.isPlaying with
    | false =>
        have hst := (h3 hp).2.2
        simp [Metronome.getAdjustedStartTime, hst]
    | true =>
        have hst := h4 hp
        cases hs : (metRun metInitial ops).1.startTime with
        | none => exact absurd hs hst
        | some t => simp [Metronome.getAdjustedStartTime, hs]
  · intro t ht
    simp [Metronome.getAdjustedStartTime, ht]

/-- C10 witness: `getAdjustedStartTime_contract` on the empty run (no
`start()` yet: `none`) and on `setBpm 60; start at 0` (playing:
`some (4000 + audioLatencyMs)`). -/
theorem getAdjustedStartTime_contract_witness :
    (Metronome.getAdjustedStartTime (metRun metInitial []).1 = none ↔
      (metRun metInitial []).1.isPlaying = false) ∧
    Metronome.getAdjustedStartTime (metRun metInitial [MetOp.setBpm 60, MetOp.start 0]).1
      = some (4000 + (metRun metInitial [MetOp.setBpm 60, MetOp.start 0]).1.audioLatencyMs) := by
  refine ⟨(getAdjustedStartTime_contract []).1, ?_⟩
  exact (getAdjustedStartTime_contract [MetOp.setBpm 60, MetOp.start 0]).2 4000
    (by rw [metRunEval2]; rfl)

/-- C3 counterexample: after exactly the eight taps
`[40, 42, 41, 43, 40, 44, 41, 42]` the session has not locked: it is
still `tapping` with no locked average, because the stability check needs
a previous average and the first one is only recorded at the 8th sample. -/
theorem calibration_no_lock_at_8th :
    (feedTaps calibTapping [40, 42, 41, 43, 40, 44, 41, 42]).phase = CalibPhase.tapping ∧
    (feedTaps calibTapping [40, 42, 41, 43, 40, 44, 41, 42]).lockedAverage = none := by
  have h8 : feedTaps calibTapping [40, 42, 41, 43, 40, 44, 41, 42] =
      { phase := .tapping, offsets := [40, 42, 41, 43, 40, 44, 41, 42], lockedAverage := none,
        confirmationTaps := 0, previousAvg := some (333/8), detectedLatency := none } := by
    simp only [feedTaps, List.foldl_cons, List.foldl_nil, calibEval1, calibEval2, calibEval3,
      calibEval4, calibEval5, calibEval6, calibEval7, calibEval8]
  rw [h8]
  exact ⟨rfl, rfl⟩

/-- C3 (amended): from a fresh tapping-phase session, the eight taps
`[40, 42, 41, 43, 40, 44, 41, 42]` record a first previous average, and
the session locks on the 9th sample (the first with a previous average
within 2 ms), setting `lockedAverage` to the running average `125/3` and
`confirmationTaps` to 1; sixteen further taps of `42` (each keeping the
overall average within 2 ms of the locked average) reach `done` with
`latencyMs = round(lockedAverage) = 42`, no sample ever being
discarded. -/
theorem calibration_scenario :
    (feedTaps calibTapping ([40, 42, 41, 43, 40, 44, 41, 42] ++ [42])).phase = CalibPhase.locked ∧
    (feedTaps calibTapping ([40, 42, 41, 43, 40, 44, 41, 42] ++ [42])).lockedAverage = some (125/3) ∧
    (feedTaps calibTapping ([40, 42, 41, 43, 40, 44, 41, 42] ++ [42])).confirmationTaps = 1 ∧
    (feedTaps calibTapping ([40, 42, 41, 43, 40, 44, 41, 42]
        ++ [42, 42, 42, 42, 42, 42, 42, 42, 42, 42, 42, 42, 42, 42, 42, 42])).phase = CalibPhase.done ∧
    (feedTaps calibTapping ([40, 42, 41, 43, 40, 44, 41, 42]
        ++ [42, 42, 42, 42, 42, 42, 42, 42, 42, 42, 42, 42, 42, 42, 42, 42])).detectedLatency = some (jsRound (125/3)) ∧
    jsRound (125/3) = 42 ∧
    (feedTaps calibTapping ([40, 42, 41, 43, 40, 44, 41, 42]
        ++ [42, 42, 42, 42, 42, 42, 42, 42, 42, 42, 42, 42, 42, 42, 42, 42])).offsets.length = 24 := by
  have h9 : feedTaps calibTapping ([40, 42, 41, 43, 40, 44, 41, 42] ++ [42]) =
      { phase := .locked, offsets := [40, 42, 41, 43, 40, 44, 41, 42, 42], lockedAverage := some (125/3),
        confirmationTaps := 1, previousAvg := some (125/3), detectedLatency := none } := by
    simp only [List.cons_append, List.nil_append, feedTaps, List.foldl_cons, List.foldl_nil,
      calibEval1, calibEval2, calibEval3, calibEval4, calibEval5, calibEval6, calibEval7, calibEval8, calibEval9]
  have h24 : feedTaps calibTapping ([40, 42, 41, 43, 40, 44, 41, 42]
        ++ [42, 42, 42, 42, 42, 42, 42, 42, 42, 42, 42, 42, 42, 42, 42, 42]) =
      { phase := .done, offsets := [40, 42, 41, 43, 40, 44, 41, 42, 42, 42, 42, 42, 42, 42, 42, 42, 42, 42, 42, 42, 42, 42, 42, 42], lockedAverage := some (125/3),
        confirmationTaps := 16, previousAvg := some (125/3), detectedLatency := some (jsRound (125/3)) } := by
    simp only [List.cons_append, List.nil_append, feedTaps, List.foldl_cons, List.foldl_nil,
      calibEval1, calibEval2, calibEval3, calibEval4, calibEval5, calibEval6, calibEval7, calibEval8, calibEval9, calibEval10, calibEval11, calibEval12, calibEval13, calibEval14, calibEval15, calibEval16, calibEval17, calibEval18, calibEval19, calibEval20, calibEval21, calibEval22, calibEval23, calibEval24]
  rw [h9, h24]
  exact ⟨rfl, rfl, rfl, rfl, rfl, jsRound_eq _ 42 (by norm_num) (by norm_num), rfl⟩



/-- C6 counterexample: the drift-revert is only transient.  From the
just-locked 9-sample session (`lockedAverage = 125/3`), an outlier tap
of 100 moves the whole-history average to `95/2` (drift `35/6 > 2`) and
the progress effect does queue the revert to `tapping` — but the phase
and lockedAverage changes re-trigger the progress effect on the next
commit, and `previousAvgRef` already equals the new average, so it
immediately re-locks: the settled state is `locked` with
`lockedAverage = 95/2` and `confirmationTaps = 1`, not the claimed
tapping state with `lockedAverage` cleared and `confirmationCount`
zero. -/
theorem locked_drift_revert_cex :
    (tap
      { phase := .locked, offsets := [40, 42, 41, 43, 40, 44, 41, 42, 42],
        lockedAverage := some (125/3), confirmationTaps := 1,
        previousAvg := some (125/3), detectedLatency := none } 100 =
    { phase := .locked, offsets := [40, 42, 41, 43, 40, 44, 41, 42, 42, 100],
      lockedAverage := some (95/2), confirmationTaps := 1,
      previousAvg := some (95/2), detectedLatency := none }) ∧
    (tap
      { phase := .locked, offsets := [40, 42, 41, 43, 40, 44, 41, 42, 42],
        lockedAverage := some (125/3), confirmationTaps := 1,
        previousAvg := some (125/3), detectedLatency := none } 100).phase ≠ CalibPhase.tapping ∧
    (tap
      { phase := .locked, offsets := [40, 42, 41, 43, 40, 44, 41, 42, 42],
        lockedAverage := some (125/3), confirmationTaps := 1,
        previousAvg := some (125/3), detectedLatency := none } 100).lockedAverage ≠ none ∧
    (tap
      { phase := .locked, offsets := [40, 42, 41, 43, 40, 44, 41, 42, 42],
        lockedAverage := some (125/3), confirmationTaps := 1,
        previousAvg := some (125/3), detectedLatency := none } 100).confirmationTaps ≠ 0 := by
  have hmain : tap
      { phase := .locked, offsets := [40, 42, 41, 43, 40, 44, 41, 42, 42],
        lockedAverage := some (125/3), confirmationTaps := 1,
        previousAvg := some (125/3), detectedLatency := none } 100 =
    { phase := .locked, offsets := [40, 42, 41, 43, 40, 44, 41, 42, 42, 100],
      lockedAverage := some (95/2), confirmationTaps := 1,
      previousAvg := some (95/2), detectedLatency := none } := by
    have h0 : tap
        { phase := .locked, offsets := [40, 42, 41, 43, 40, 44, 41, 42, 42],
          lockedAverage := some (125/3), confirmationTaps := 1,
          previousAvg := some (125/3), detectedLatency := none } 100 =
        effectsCascade 4
          { phase := .locked, offsets := [40, 42, 41, 43, 40, 44, 41, 42, 42],
            lockedAverage := some (125/3), confirmationTaps := 1,
            previousAvg := some (125/3), detectedLatency := none }
          { phase := .locked, offsets := [40, 42, 41, 43, 40, 44, 41, 42, 42, 100],
            lockedAverage := some (125/3), confirmationTaps := 2,
            previousAvg := some (125/3), detectedLatency := none } := by
      norm_num [tap]
    try simp
    have h1 : effectsRound
        { phase := .locked, offsets := [40, 42, 41, 43, 40, 44, 41, 42, 42],
          lockedAverage := some (125/3), confirmationTaps := 1,
          previousAvg := some (125/3), detectedLatency := none }
        { phase := .locked, offsets := [40, 42, 41, 43, 40, 44, 41, 42, 42, 100],
          lockedAverage := some (125/3), confirmationTaps := 2,
          previousAvg := some (125/3), detectedLatency := none } =
        { phase := .tapping, offsets := [40, 42, 41, 43, 40, 44, 41, 42, 42, 100],
          lockedAverage := none, confirmationTaps := 0,
          previousAvg := some (95/2), detectedLatency := none } := by
      norm_num [effectsRound, progressEffect, confirmationEffect, calculateAverageOffset,
        STABILITY_THRESHOLD_MS, CONFIRMATION_BEATS, MIN_TAPS_BEFORE_LOCK, abs_le, lt_abs]
      try simp
    have h2 : effectsRound
        { phase := .locked, offsets := [40, 42, 41, 43, 40, 44, 41, 42, 42, 100],
          lockedAverage := some (125/3), confirmationTaps := 2,
          previousAvg := some (125/3), detectedLatency := none }
        { phase := .tapping, offsets := [40, 42, 41, 43, 40, 44, 41, 42, 42, 100],
          lockedAverage := none, confirmationTaps := 0,
          previousAvg := some (95/2), detectedLatency := none } =
        { phase := .locked, offsets := [40, 42, 41, 43, 40, 44, 41, 42, 42, 100],
          lockedAverage := some (95/2), confirmationTaps := 1,
          previousAvg := some (95/2), detectedLatency := none } := by
      norm_num [effectsRound, progressEffect, confirmationEffect, calculateAverageOffset,
        STABILITY_THRESHOLD_MS, CONFIRMATION_BEATS, MIN_TAPS_BEFORE_LOCK, abs_le, lt_abs]
      try simp
    have h3 : effectsRound
        { phase := .tapping, offsets := [40, 42, 41, 43, 40, 44, 41, 42, 42, 100],
          lockedAverage := none, confirmationTaps := 0,
          previousAvg := some (95/2), detectedLatency := none }
        { phase := .locked, offsets := [40, 42, 41, 43, 40, 44, 41, 42, 42, 100],
          lockedAverage := some (95/2), confirmationTaps := 1,
          previousAvg := some (95/2), detectedLatency := none } =
        { phase := .locked, offsets := [40, 42, 41, 43, 40, 44, 41, 42, 42, 100],
          lockedAverage := some (95/2), confirmationTaps := 1,
          previousAvg := some (95/2), detectedLatency := none } := by
      norm_num [effectsRound, progressEffect, confirmationEffect, calculateAverageOffset,
        STABILITY_THRESHOLD_MS, CONFIRMATION_BEATS, MIN_TAPS_BEFORE_LOCK, abs_le, lt_abs]
      try simp
    rw [h0]
    simp only [effectsCascade_four]
    rw [h1, h2, h3]
    simp only [effectsRound_self]
  rw [hmain]
  refine ⟨rfl, by simp, by simp, by simp⟩

/-- C6 (amended): while `locked` (with the drifting tap not the 16th
confirmation tap), a tap whose offset pushes the whole-history average
more than 2 ms away from `lockedAverage` does queue the claimed revert —
the first commit round produces `tapping` with `lockedAverage` cleared,
`confirmationTaps = 0` and `previousAverage` set to the new average —
but the revert survives only that one render: the phase and
`lockedAverage` changes re-run the progress effect, which finds
`previousAverage` equal to the current average and immediately
re-locks, so the tap settles in `locked` with `lockedAverage` equal to
the new average and `confirmationTaps = 1`; throughout, the offset
history is retained in full (no samples discarded). -/
theorem locked_drift_relocks (s : CalibState) (offsetMs lockedAvg : ℚ)
    (hphase : s.phase = CalibPhase.locked)
    (hla : s.lockedAverage = some lockedAvg)
    (hlen : MIN_TAPS_BEFORE_LOCK ≤ (s.offsets ++ [offsetMs]).length)
    (hconf : s.confirmationTaps + 1 < CONFIRMATION_BEATS)
    (hdrift : STABILITY_THRESHOLD_MS
        < |calculateAverageOffset (s.offsets ++ [offsetMs]) - lockedAvg|) :
    effectsRound s
        { s with offsets := s.offsets ++ [offsetMs],
                  confirmationTaps := s.confirmationTaps + 1 } =
      { s with phase := CalibPhase.tapping, offsets := s.offsets ++ [offsetMs],
                lockedAverage := none, confirmationTaps := 0,
                previousAvg := some (calculateAverageOffset (s.offsets ++ [offsetMs])) } ∧
    tap s offsetMs =
      { s with phase := CalibPhase.locked, offsets := s.offsets ++ [offsetMs],
                lockedAverage := some (calculateAverageOffset (s.offsets ++ [offsetMs])),
                confirmationTaps := 1,
                previousAvg := some (calculateAverageOffset (s.offsets ++ [offsetMs])) } := by
  obtain ⟨ph, offs, la, conf, prev, det⟩ := s
  simp only at hphase hla hlen hconf hdrift ⊢
  subst hphase
  subst hla
  have hoffs : offs ≠ offs ++ [offsetMs] := by
    intro h
    have := congrArg List.length h
    simp at this
  have hconfne : conf ≠ conf + 1 := by omega
  have hstab : |calculateAverageOffset (offs ++ [offsetMs]) -
      calculateAverageOffset (offs ++ [offsetMs])| ≤ STABILITY_THRESHOLD_MS := by
    simp [STABILITY_THRESHOLD_MS]
  have hnodrift : ¬ STABILITY_THRESHOLD_MS < |calculateAverageOffset (offs ++ [offsetMs]) -
      calculateAverageOffset (offs ++ [offsetMs])| := by
    simp [STABILITY_THRESHOLD_MS]
  have hr1 : effectsRound (CalibState.mk CalibPhase.locked offs (some lockedAvg) conf prev det)
      (CalibState.mk CalibPhase.locked (offs ++ [offsetMs]) (some lockedAvg) (conf + 1) prev det) =
      CalibState.mk CalibPhase.tapping (offs ++ [offsetMs]) none 0
        (some (calculateAverageOffset (offs ++ [offsetMs]))) det := by
    simp only [effectsRound, confirmationEffect, progressEffect, Option.getD_some]
    split_ifs <;>
      first
        | rfl
        | omega
        | (exfalso; apply hoffs; tauto)
        | simp_all
  have hr2 : effectsRound
      (CalibState.mk CalibPhase.locked (offs ++ [offsetMs]) (some lockedAvg) (conf + 1) prev det)
      (CalibState.mk CalibPhase.tapping (offs ++ [offsetMs]) none 0
        (some (calculateAverageOffset (offs ++ [offsetMs]))) det) =
      CalibState.mk CalibPhase.locked (offs ++ [offsetMs])
        (some (calculateAverageOffset (offs ++ [offsetMs]))) 1
        (some (calculateAverageOffset (offs ++ [offsetMs]))) det := by
    simp only [effectsRound, confirmationEffect, progressEffect, Option.getD_some]
    split_ifs <;>
      first
        | rfl
        | omega
        | (exfalso; apply hoffs; tauto)
        | simp_all
  have hr3 : effectsRound
      (CalibState.mk CalibPhase.tapping (offs ++ [offsetMs]) none 0
        (some (calculateAverageOffset (offs ++ [offsetMs]))) det)
      (CalibState.mk CalibPhase.locked (offs ++ [offsetMs])
        (some (calculateAverageOffset (offs ++ [offsetMs]))) 1
        (some (calculateAverageOffset (offs ++ [offsetMs]))) det) =
      CalibState.mk CalibPhase.locked (offs ++ [offsetMs])
        (some (calculateAverageOffset (offs ++ [offsetMs]))) 1
        (some (calculateAverageOffset (offs ++ [offsetMs]))) det := by
    simp only [effectsRound, confirmationEffect, progressEffect, Option.getD_some]
    split_ifs <;>
      first
        | rfl
        | omega
        | (exfalso; apply hoffs; tauto)
        | simp_all
  refine ⟨hr1, ?_⟩
  unfold tap
  rw [if_pos (Or.inr rfl), if_pos rfl]
  simp only [effectsCascade_four]
  rw [hr1, hr2, hr3]
  simp only [effectsRound_self]

/-- C6 witness: `locked_drift_relocks` on the just-locked 9-sample state
with the outlier tap 100: the session settles re-locked at the new
average `95/2` with `confirmationTaps = 1` and all ten samples kept. -/
theorem locked_drift_relocks_witness :
    tap
      { phase := .locked, offsets := [40, 42, 41, 43, 40, 44, 41, 42, 42],
        lockedAverage := some (125/3), confirmationTaps := 1,
        previousAvg := some (125/3), detectedLatency := none } 100 =
      { phase := CalibPhase.locked, offsets := [40, 42, 41, 43, 40, 44, 41, 42, 42, 100],
         lockedAverage := some (95/2), confirmationTaps := 1, previousAvg := some (95/2),
         detectedLatency := none } := by
  have h := (locked_drift_relocks
    { phase := .locked, offsets := [40, 42, 41, 43, 40, 44, 41, 42, 42],
      lockedAverage := some (125/3), confirmationTaps := 1,
      previousAvg := some (125/3), detectedLatency := none } 100 (125/3) rfl rfl
    (by norm_num [MIN_TAPS_BEFORE_LOCK])
    (by norm_num [CONFIRMATION_BEATS])
    (by norm_num [calculateAverageOffset, STABILITY_THRESHOLD_MS, lt_abs])).2
  rw [h]
  norm_num [calculateAverageOffset]
